import Mathlib

/-!
# Sonar Light Switch (v3.0 sketch) — shallow embedding and verification

This file embeds the control loop of the Arduino sketch (`loop()` and the
helper routines `wifi_check`, `isItDark`, `porch_on`, `porch_off`,
`sendKasaCommand`, `form_log`, `porchLightHeartbeat`, `keepSSLWarm`) as pure
Lean functions over an explicit state record, and proves properties of the
embedding.

Modelling conventions, stated once here:

* Arduino `unsigned long` is 32 bits.  Absolute time since boot is a `Nat`;
  a `millis()` reading is `mm t = t % 2^32`, and every subtraction of two
  readings in the sketch is the wraparound subtraction `sub32`.
* `millis()` is read several times inside one pass of `loop()` (and inside
  `porch_on` / `porch_off`); all readings within one tick are modelled by
  the single tick time `Inp.time` (a tick lasts ~100 ms + bounded network
  timeouts).
* External effects are modelled as per-tick oracle inputs (`Inp`): the
  sensor result of `find_body()`, the NTP fields read by `isItDark`, the
  Dusk2Dawn almanac results, Wi-Fi status, and the success of each TCP/SSL
  connect.  The remote Kasa switch is modelled as an honest device: its
  relay state is the field `St.relayOn`, a `get_sysinfo` reply contains
  `relay_state: 1` exactly when the relay is on, and a received
  `set_relay_state` command updates the relay.
* Wire traffic to the Kasa switch is observed as the `Cmd` list emitted per
  tick; connection attempts to the switch are counted in
  `Out.kasaConnects`; the Wi-Fi reconnect attempt (`WiFi.begin` inside
  `wifi_check`) is the flag `Out.wifiAttempt`.  `updateStatusLEDs` only
  writes LEDs from state and is omitted.
* `setup()` initialises the globals (`initSt`); its `form_log("SYSTEM BOOT")`
  call happens before Wi-Fi is associated and returns without effect.
-/

namespace SonarLight

/-- `2^32`, the modulus of the Arduino `unsigned long` type. -/
def M32 : Nat := 4294967296

/-- The `millis()` reading at absolute time `t`: the 32-bit wrap of `t`. -/
def mm (t : Nat) : Nat := t % M32

/-- Wraparound subtraction `a - b` of two `unsigned long` values, the only
way the sketch compares timestamps ("switch to subtraction logic for
millis() to avoid overflow issues"). -/
def sub32 (a b : Nat) : Nat := (((a : Int) - (b : Int)) % (M32 : Int)).toNat

/-- The signed test `(long)(a - b) >= 0` used by the porch auto-off check:
true iff the 32-bit difference, reinterpreted as a signed `long`, is
non-negative. -/
def sge0 (d : Nat) : Bool := d < 2147483648

/-- The `x ? x : 1` idiom of the sketch, applied to a `millis()` reading
before it is stored into a log-event slot: a reading of 0 is recorded as 1
so that a pending event is never confused with an empty slot. -/
def markTime (r : Nat) : Nat := if r = 0 then 1 else r

/-- `light_length`: time the stairway light stays on after the last body. -/
def light_length : Nat := 60000

/-- `wifi_try_time`: minimum spacing between Wi-Fi reconnect attempts. -/
def wifi_try_time : Nat := 60000

/-- `heartbeatInterval`: spacing of the Kasa keep-warm heartbeat. -/
def heartbeatInterval : Nat := 1800000

/-- `ssl_keepalive_interval`: idle time before an SSL keep-alive. -/
def ssl_keepalive_interval : Nat := 25000

/-- `porch_duration`: time after porch-on before auto-off is attempted. -/
def porch_duration : Nat := 300000

/-- A command sent over the Kasa wire protocol (the decoded JSON body of
`sendKasaCommand`). -/
inductive Cmd
  /-- `{"system":{"get_sysinfo":{}}}` — query the relay state. -/
  | queryInfo
  /-- `{"system":{"set_relay_state":{"state":1|0}}}` — set the relay. -/
  | setRelay (b : Bool)
deriving DecidableEq, Repr

/-- The mutable globals of the sketch (plus the modelled Kasa relay). -/
structure St where
  /-- `digitalRead(pLight)`: the stairway light relay pin. -/
  light : Bool
  /-- `body_time`: last `millis()` at which a body was seen while dark. -/
  body_time : Nat
  /-- `low_detect_time`: last `millis()` at which the lower sensor fired. -/
  low_detect_time : Nat
  /-- `up_detect_time`: last `millis()` at which the upper sensor fired. -/
  up_detect_time : Nat
  /-- `porch_auto_off_time`: porch auto-off deadline, 0 = not set. -/
  porch_auto_off_time : Nat
  /-- `logTimeOn`: pending "Stair light ON" event slot (0 = empty). -/
  logTimeOn : Nat
  /-- `logTimeOff`: pending "Stair light OFF" event slot (0 = empty). -/
  logTimeOff : Nat
  /-- `logTimeWiFi`: pending "WiFi RECONNECTED" event slot (0 = empty). -/
  logTimeWiFi : Nat
  /-- `logTimePorchOn`: pending "Porch light ON" event slot (0 = empty). -/
  logTimePorchOn : Nat
  /-- `logTimeKasaFail`: pending "Kasa Porch Timeout" event slot (0 = empty). -/
  logTimeKasaFail : Nat
  /-- `was_connected` (static in `wifi_check`). -/
  was_connected : Bool
  /-- `last_wifi_try` (static in `wifi_check`). -/
  last_wifi_try : Nat
  /-- `lastHeartbeat`. -/
  lastHeartbeat : Nat
  /-- `last_ssl_activity`. -/
  last_ssl_activity : Nat
  /-- `cachedSunrise` (minute of day, Dusk2Dawn result). -/
  cachedSunrise : Int
  /-- `cachedSunset` (minute of day, Dusk2Dawn result). -/
  cachedSunset : Int
  /-- `lastSunUpdate`. -/
  lastSunUpdate : Nat
  /-- State of the remote porch relay (the modelled Kasa device). -/
  relayOn : Bool
deriving DecidableEq, Repr

/-- The per-tick environment: one pass of `loop()` reads these. -/
structure Inp where
  /-- Absolute ms since boot at the top of the tick (`the_time = millis()`). -/
  time : Nat
  /-- `find_body()` result: bit 1 = lower sensor, bit 2 = upper sensor. -/
  sensor : Nat
  /-- `timeClient.getEpochTime()`. -/
  epochTime : Nat
  /-- `timeClient.getHours() * 60 + timeClient.getMinutes()`. -/
  currentMin : Int
  /-- `sf.sunrise(...)` for the tick's date (Dusk2Dawn library result). -/
  sunriseF : Int
  /-- `sf.sunset(...)` for the tick's date (Dusk2Dawn library result). -/
  sunsetF : Int
  /-- `WiFi.status() == WL_CONNECTED` during this tick. -/
  wifi : Bool
  /-- Result of the first `client.connect` in `porch_on`. -/
  connectOk : Bool
  /-- Result of the second `client.connect` in `porch_on`. -/
  connect2Ok : Bool
  /-- Result of the `client.connect` in `porch_off`. -/
  offConnectOk : Bool
  /-- Result of the `client.connect` in `porchLightHeartbeat`. -/
  hbConnectOk : Bool
  /-- `client.connected()` when `form_log`/`keepSSLWarm` look at it. -/
  sslConnected : Bool
  /-- Result of `client.connectSSL` in `form_log`. -/
  sslOk : Bool
deriving DecidableEq, Repr

/-- The globals as initialised at boot (`setup()` plus initialisers):
everything off, nothing detected, never connected.  `lastHeartbeat` and
`lastSunUpdate` are the wraps of the negative initialisers `-1800001` and
`-3600001`. -/
def initSt : St :=
  { light := false,
    body_time := 0,
    low_detect_time := 0,
    up_detect_time := 0,
    porch_auto_off_time := 0,
    logTimeOn := 0,
    logTimeOff := 0,
    logTimeWiFi := 0,
    logTimePorchOn := 0,
    logTimeKasaFail := 0,
    was_connected := false,
    last_wifi_try := 0,
    lastHeartbeat := 4293167295,
    last_ssl_activity := 0,
    cachedSunrise := 0,
    cachedSunset := 0,
    lastSunUpdate := 4291367295,
    relayOn := false }

/-- Result of one call of the embedded `isItDark()`. -/
structure DarkRes where
  /-- The returned boolean. -/
  dark : Bool
  /-- `cachedSunrise` after the call. -/
  cachedSunrise : Int
  /-- `cachedSunset` after the call. -/
  cachedSunset : Int
  /-- `lastSunUpdate` after the call. -/
  lastSunUpdate : Nat
deriving DecidableEq, Repr

/-- `isItDark()`: sanity-check the NTP epoch against 2025-01-01; below the
threshold fall back to the fixed window (17:00..8:00); otherwise recompute
the solar cache when more than an hour old, then compare the current minute
of day against the cached sunrise/sunset with a 15-minute margin. -/
def isItDark (s : St) (i : Inp) : DarkRes :=
  let t := mm i.time
  if i.epochTime < 1735689600 then
    { dark := decide (i.currentMin ≥ 1020 ∨ i.currentMin ≤ 480),
      cachedSunrise := s.cachedSunrise,
      cachedSunset := s.cachedSunset,
      lastSunUpdate := s.lastSunUpdate }
  else
    let upd : Bool := decide (sub32 t s.lastSunUpdate > 3600000)
    let cr := if upd then i.sunriseF else s.cachedSunrise
    let cs := if upd then i.sunsetF else s.cachedSunset
    let lu := if upd then t else s.lastSunUpdate
    { dark := decide (i.currentMin ≥ cs - 15 ∨ i.currentMin ≤ cr + 15),
      cachedSunrise := cr,
      cachedSunset := cs,
      lastSunUpdate := lu }

/-- Result of one call of the embedded `porch_on()`. -/
structure KasaRes where
  /-- Commands written to the Kasa switch. -/
  cmds : List Cmd
  /-- `porch_auto_off_time` after the call. -/
  deadline : Nat
  /-- `logTimePorchOn` after the call. -/
  logPorchOn : Nat
  /-- `logTimeKasaFail` after the call. -/
  logKasaFail : Nat
  /-- Relay state of the modelled switch after the call. -/
  relayOn : Bool
  /-- Number of `client.connect(porch_light_IP, ...)` calls made. -/
  connects : Nat
deriving DecidableEq, Repr

/-- `porch_on()`: bail out if Wi-Fi is down; connect and query
`get_sysinfo`; if the reply does not show the relay on, connect again and
send `set_relay_state 1`, arm the auto-off deadline and log "Porch light
ON"; a failed first connect only logs "Kasa Porch Timeout".  The
`get_sysinfo` reply is modelled as faithfully reporting `relayOn` (see
module header). -/
def porch_on (now : Nat) (wifi connectOk connect2Ok relayOn : Bool)
    (deadline logPorchOn logKasaFail : Nat) : KasaRes :=
  if wifi = false then
    { cmds := [],
      deadline := deadline,
      logPorchOn := logPorchOn,
      logKasaFail := logKasaFail,
      relayOn := relayOn,
      connects := 0 }
  else if connectOk then
    if relayOn then
      { cmds := [Cmd.queryInfo],
        deadline := deadline,
        logPorchOn := logPorchOn,
        logKasaFail := logKasaFail,
        relayOn := relayOn,
        connects := 1 }
    else if connect2Ok then
      { cmds := [Cmd.queryInfo, Cmd.setRelay true],
        deadline := (mm now + porch_duration) % M32,
        logPorchOn := markTime (mm now),
        logKasaFail := logKasaFail,
        relayOn := true,
        connects := 2 }
    else
      { cmds := [Cmd.queryInfo],
        deadline := deadline,
        logPorchOn := logPorchOn,
        logKasaFail := logKasaFail,
        relayOn := relayOn,
        connects := 2 }
  else
    { cmds := [],
      deadline := deadline,
      logPorchOn := logPorchOn,
      logKasaFail := markTime (mm now),
      relayOn := relayOn,
      connects := 1 }

/-- Result of one call of the embedded `porch_off()`. -/
structure OffRes where
  /-- Commands written to the Kasa switch. -/
  cmds : List Cmd
  /-- `porch_auto_off_time` after the call. -/
  deadline : Nat
  /-- Relay state of the modelled switch after the call. -/
  relayOn : Bool
  /-- Number of `client.connect(porch_light_IP, ...)` calls made. -/
  connects : Nat
deriving DecidableEq, Repr

/-- `porch_off()`: with Wi-Fi down, push the deadline 10 s ahead; on a
successful connect send `set_relay_state 0` and clear the deadline; on a
failed connect push the deadline 60 s ahead. -/
def porch_off (now : Nat) (wifi connectOk relayOn : Bool) : OffRes :=
  if wifi = false then
    { cmds := [],
      deadline := (mm now + 10000) % M32,
      relayOn := relayOn,
      connects := 0 }
  else if connectOk then
    { cmds := [Cmd.setRelay false],
      deadline := 0,
      relayOn := false,
      connects := 1 }
  else
    { cmds := [],
      deadline := (mm now + 60000) % M32,
      relayOn := relayOn,
      connects := 1 }

/-- Whether `form_log` succeeds (returns 1): Wi-Fi must be up and the SSL
client must be connected already or reconnect successfully. -/
def formLogOk (wifi sslConnected sslOk : Bool) : Bool :=
  wifi && (sslConnected || sslOk)

/-- The `sprintf(logBuf, "%s (%lus ago)", msg, (the_time - ts)/1000)`
formatting of a drained log event. -/
def logMsg (m : String) (t ts : Nat) : String :=
  m ++ " (" ++ toString (sub32 (mm t) ts / 1000) ++ "s ago)"

/-- Result of scanning the `events[]` table once (`loop()` lines that drain
at most one pending log event). -/
structure DrainRes where
  /-- `logTimeWiFi` after the scan. -/
  lw : Nat
  /-- `logTimeOn` after the scan. -/
  lon : Nat
  /-- `logTimePorchOn` after the scan. -/
  lp : Nat
  /-- `logTimeOff` after the scan. -/
  loff : Nat
  /-- `logTimeKasaFail` after the scan. -/
  lk : Nat
  /-- The message handed to `form_log`, with the send result, if any slot
  was pending. -/
  sent : Option (String × Bool)
deriving DecidableEq, Repr

/-- The `for` scan over `events[]`: take the first slot with a nonzero
timestamp (table order: WiFi, stair-on, porch-on, stair-off, Kasa-fail),
format it, hand it to `form_log`, clear the slot only if the send
succeeded, and stop (`break`). -/
def drainLogs (t : Nat) (ok : Bool) (lw lon lp loff lk : Nat) : DrainRes :=
  if lw > 0 then
    { lw := if ok then 0 else lw,
      lon := lon,
      lp := lp,
      loff := loff,
      lk := lk,
      sent := some (logMsg "WiFi RECONNECTED" t lw, ok) }
  else if lon > 0 then
    { lw := lw,
      lon := if ok then 0 else lon,
      lp := lp,
      loff := loff,
      lk := lk,
      sent := some (logMsg "Stair light ON" t lon, ok) }
  else if lp > 0 then
    { lw := lw,
      lon := lon,
      lp := if ok then 0 else lp,
      loff := loff,
      lk := lk,
      sent := some (logMsg "Porch light ON" t lp, ok) }
  else if loff > 0 then
    { lw := lw,
      lon := lon,
      lp := lp,
      loff := if ok then 0 else loff,
      lk := lk,
      sent := some (logMsg "Stair light OFF" t loff, ok) }
  else if lk > 0 then
    { lw := lw,
      lon := lon,
      lp := lp,
      loff := loff,
      lk := if ok then 0 else lk,
      sent := some (logMsg "Kasa Porch Timeout" t lk, ok) }
  else
    { lw := lw, lon := lon, lp := lp, loff := loff, lk := lk, sent := none }

/-- `wifi_check()`: when connected, log the reconnection edge; when
disconnected, attempt `WiFi.begin` only if `wifi_try_time` has elapsed
since `last_wifi_try`, recording the attempt time.  The `Bool` is true iff
`WiFi.begin` was called this tick. -/
def wifi_check (s : St) (i : Inp) : St × Bool :=
  if i.wifi then
    if s.was_connected = false then
      ({ s with
          logTimeWiFi := markTime (mm i.time),
          was_connected := true },
       false)
    else (s, false)
  else
    let s1 := { s with was_connected := false }
    if sub32 (mm i.time) s1.last_wifi_try < wifi_try_time then (s1, false)
    else ({ s1 with last_wifi_try := mm i.time }, true)

/-- Result of the sensor/light/porch-on section of `loop()`. -/
structure DetectRes where
  /-- State after the section. -/
  st : St
  /-- Commands written to the Kasa switch. -/
  cmds : List Cmd
  /-- Kasa connection attempts made. -/
  connects : Nat
deriving DecidableEq, Repr

/-- `loop()` lines 195–210: record the detection times, and when it is
dark, refresh `body_time`; turn the stairway light on if it was off, else
call `porch_on` when the upper sensor fired between 4 s and 40 s after the
last lower detection. -/
def detectStep (s : St) (i : Inp) : DetectRes :=
  if i.sensor = 0 then { st := s, cmds := [], connects := 0 }
  else
    let t := mm i.time
    let low1 := if i.sensor &&& 1 ≠ 0 then t else s.low_detect_time
    let up1 := if i.sensor &&& 2 ≠ 0 then t else s.up_detect_time
    let d := isItDark s i
    let s1 := { s with
                low_detect_time := low1,
                up_detect_time := up1,
                cachedSunrise := d.cachedSunrise,
                cachedSunset := d.cachedSunset,
                lastSunUpdate := d.lastSunUpdate }
    if d.dark then
      let s2 := { s1 with body_time := t }
      if s2.light = false then
        { st := { s2 with light := true, logTimeOn := markTime t },
          cmds := [],
          connects := 0 }
      else if i.sensor &&& 2 ≠ 0 ∧ sub32 t low1 < 40000 ∧ sub32 t low1 > 4000 then
        let r := porch_on i.time i.wifi i.connectOk i.connect2Ok s2.relayOn
          s2.porch_auto_off_time s2.logTimePorchOn s2.logTimeKasaFail
        { st := { s2 with
                  porch_auto_off_time := r.deadline,
                  logTimePorchOn := r.logPorchOn,
                  logTimeKasaFail := r.logKasaFail,
                  relayOn := r.relayOn },
          cmds := r.cmds,
          connects := r.connects }
      else { st := s2, cmds := [], connects := 0 }
    else { st := s1, cmds := [], connects := 0 }

/-- `loop()` lines 212–215: switch the light off once no body has been
seen (while dark) for `light_length`. -/
def lightOffStep (s : St) (i : Inp) : St :=
  if s.light = true ∧ sub32 (mm i.time) s.body_time ≥ light_length then
    { s with light := false, logTimeOff := markTime (mm i.time) }
  else s

/-- Result of the porch auto-off section of `loop()`. -/
structure POffRes where
  /-- State after the section. -/
  st : St
  /-- Commands written to the Kasa switch. -/
  cmds : List Cmd
  /-- Whether `porch_off()` was invoked. -/
  called : Bool
  /-- Kasa connection attempts made. -/
  connects : Nat
deriving DecidableEq, Repr

/-- `loop()` lines 217–219: when the auto-off deadline is set and the
signed 32-bit difference `the_time - porch_auto_off_time` is non-negative,
call `porch_off()`. -/
def porchOffStep (s : St) (i : Inp) : POffRes :=
  if s.porch_auto_off_time ≠ 0 ∧
      sge0 (sub32 (mm i.time) s.porch_auto_off_time) = true then
    let r := porch_off i.time i.wifi i.offConnectOk s.relayOn
    { st := { s with porch_auto_off_time := r.deadline, relayOn := r.relayOn },
      cmds := r.cmds,
      called := true,
      connects := r.connects }
  else { st := s, cmds := [], called := false, connects := 0 }

/-- Result of the quiet-period logging/keep-alive section of `loop()`. -/
structure DrainStepRes where
  /-- State after the section. -/
  st : St
  /-- Commands written to the Kasa switch (heartbeat query, if any). -/
  cmds : List Cmd
  /-- The log message handed to `form_log` with its send result, if any. -/
  sent : Option (String × Bool)
  /-- Kasa connection attempts made. -/
  connects : Nat
deriving DecidableEq, Repr

/-- `loop()` lines 221–236: only after 3 s with no sensor activity, drain
at most one pending log event through `form_log` (which refreshes
`last_ssl_activity` exactly when it succeeds); if nothing was pending,
either warm the SSL session (`keepSSLWarm`) or run the Kasa heartbeat
(`porchLightHeartbeat`). -/
def drainStep (s : St) (i : Inp) : DrainStepRes :=
  let t := mm i.time
  if sub32 t s.low_detect_time > 3000 ∧ sub32 t s.up_detect_time > 3000 then
    let ok := formLogOk i.wifi i.sslConnected i.sslOk
    let r := drainLogs i.time ok s.logTimeWiFi s.logTimeOn s.logTimePorchOn
      s.logTimeOff s.logTimeKasaFail
    if r.sent.isSome then
      { st := { s with
                logTimeWiFi := r.lw,
                logTimeOn := r.lon,
                logTimePorchOn := r.lp,
                logTimeOff := r.loff,
                logTimeKasaFail := r.lk,
                last_ssl_activity := if ok then t else s.last_ssl_activity },
        cmds := [],
        sent := r.sent,
        connects := 0 }
    else if sub32 t s.last_ssl_activity > ssl_keepalive_interval then
      { st := { s with last_ssl_activity := t },
        cmds := [],
        sent := none,
        connects := 0 }
    else if sub32 t s.lastHeartbeat > heartbeatInterval then
      if i.wifi ∧ i.hbConnectOk then
        { st := { s with lastHeartbeat := t },
          cmds := [Cmd.queryInfo],
          sent := none,
          connects := 1 }
      else if i.wifi then
        { st := { s with lastHeartbeat := t },
          cmds := [],
          sent := none,
          connects := 1 }
      else
        { st := { s with lastHeartbeat := t },
          cmds := [],
          sent := none,
          connects := 0 }
    else { st := s, cmds := [], sent := none, connects := 0 }
  else { st := s, cmds := [], sent := none, connects := 0 }

/-- The observable result of one pass of `loop()`. -/
structure Out where
  /-- State at the end of the tick. -/
  st : St
  /-- Commands written to the Kasa switch during the tick, in order. -/
  cmds : List Cmd
  /-- Log message handed to `form_log` (with send result), if any. -/
  sent : Option (String × Bool)
  /-- Whether `wifi_check` called `WiFi.begin` this tick. -/
  wifiAttempt : Bool
  /-- Kasa connection attempts made this tick. -/
  kasaConnects : Nat
  /-- Whether `porch_off()` was invoked this tick. -/
  porchOffCalled : Bool
deriving DecidableEq, Repr

/-- One pass of `loop()`: `wifi_check`, sensing and light/porch-on logic,
stairway-light timeout, porch auto-off, then the quiet-period
logging/keep-alive slot. -/
def tick (s : St) (i : Inp) : Out :=
  let w := wifi_check s i
  let d := detectStep w.1 i
  let s3 := lightOffStep d.st i
  let p := porchOffStep s3 i
  let q := drainStep p.st i
  { st := q.st,
    cmds := d.cmds ++ p.cmds ++ q.cmds,
    sent := q.sent,
    wifiAttempt := w.2,
    kasaConnects := d.connects + p.connects + q.connects,
    porchOffCalled := p.called }

/-- Run the loop over a list of tick environments. -/
def run (s : St) : List Inp → St
  | [] => s
  | i :: is => run (tick s i).st is

/-- All Kasa commands emitted along a run, in order. -/
def runCmds (s : St) : List Inp → List Cmd
  | [] => []
  | i :: is => (tick s i).cmds ++ runCmds (tick s i).st is

/-- The (absolute) times of the ticks in which `wifi_check` called
`WiFi.begin`, in order. -/
def wifiAttemptTimes (s : St) : List Inp → List Nat
  | [] => []
  | i :: is =>
    if (tick s i).wifiAttempt then i.time :: wifiAttemptTimes (tick s i).st is
    else wifiAttemptTimes (tick s i).st is

/-- Number of porch-on (`set_relay_state state=1`) commands in a list. -/
def onCount (cs : List Cmd) : Nat := cs.countP (fun c => c == Cmd.setRelay true)

/-- Number of porch-off (`set_relay_state state=0`) commands in a list. -/
def offCount (cs : List Cmd) : Nat := cs.countP (fun c => c == Cmd.setRelay false)

/-- Whether, after a command sequence, an issued porch-on is still not
followed by a (successful) porch-off. -/
def pendingOn (cs : List Cmd) : Bool :=
  cs.foldl (fun b c => match c with
    | Cmd.setRelay b2 => b2
    | Cmd.queryInfo => b) false

/-- Strictly increasing tick times, all above `t0`. -/
def timesMono (t0 : Nat) : List Inp → Bool
  | [] => true
  | i :: is => decide (t0 < i.time) && timesMono i.time is

/-- All tick times below a bound. -/
def timesBelow (b : Nat) (is : List Inp) : Bool :=
  is.all (fun i => decide (i.time < b))

/-- The time of the last tick of a trace (`t0` for the empty trace). -/
def lastTime (t0 : Nat) : List Inp → Nat
  | [] => t0
  | i :: is => lastTime i.time is

/-- The rolling-XOR obfuscation of `sendKasaCommand`: each output byte is
`key ^= msg[i]`, i.e. the current key XOR the next plaintext byte, and the
key becomes that output byte. -/
def kasaEncode (key : Nat) : List Nat → List Nat
  | [] => []
  | b :: bs => Nat.xor key b :: kasaEncode (Nat.xor key b) bs

/-- The matching decode transform of the Kasa protocol (the receiver's side,
not part of the sketch): each plaintext byte is the current key XOR the
next ciphertext byte, and the key becomes that ciphertext byte. -/
def kasaDecode (key : Nat) : List Nat → List Nat
  | [] => []
  | b :: bs => Nat.xor key b :: kasaDecode b bs

/-! ## Pushing record projections through `if` (proof plumbing) -/

@[simp] theorem ite_St_light (c : Prop) [Decidable c] (a b : St) :
    (if c then a else b).light = if c then a.light else b.light :=
  apply_ite St.light c a b

@[simp] theorem ite_St_body_time (c : Prop) [Decidable c] (a b : St) :
    (if c then a else b).body_time = if c then a.body_time else b.body_time :=
  apply_ite St.body_time c a b

@[simp] theorem ite_St_low_detect_time (c : Prop) [Decidable c] (a b : St) :
    (if c then a else b).low_detect_time = if c then a.low_detect_time else b.low_detect_time :=
  apply_ite St.low_detect_time c a b

@[simp] theorem ite_St_up_detect_time (c : Prop) [Decidable c] (a b : St) :
    (if c then a else b).up_detect_time = if c then a.up_detect_time else b.up_detect_time :=
  apply_ite St.up_detect_time c a b

@[simp] theorem ite_St_porch_auto_off_time (c : Prop) [Decidable c] (a b : St) :
    (if c then a else b).porch_auto_off_time = if c then a.porch_auto_off_time else b.porch_auto_off_time :=
  apply_ite St.porch_auto_off_time c a b

@[simp] theorem ite_St_logTimeOn (c : Prop) [Decidable c] (a b : St) :
    (if c then a else b).logTimeOn = if c then a.logTimeOn else b.logTimeOn :=
  apply_ite St.logTimeOn c a b

@[simp] theorem ite_St_logTimeOff (c : Prop) [Decidable c] (a b : St) :
    (if c then a else b).logTimeOff = if c then a.logTimeOff else b.logTimeOff :=
  apply_ite St.logTimeOff c a b

@[simp] theorem ite_St_logTimeWiFi (c : Prop) [Decidable c] (a b : St) :
    (if c then a else b).logTimeWiFi = if c then a.logTimeWiFi else b.logTimeWiFi :=
  apply_ite St.logTimeWiFi c a b

@[simp] theorem ite_St_logTimePorchOn (c : Prop) [Decidable c] (a b : St) :
    (if c then a else b).logTimePorchOn = if c then a.logTimePorchOn else b.logTimePorchOn :=
  apply_ite St.logTimePorchOn c a b

@[simp] theorem ite_St_logTimeKasaFail (c : Prop) [Decidable c] (a b : St) :
    (if c then a else b).logTimeKasaFail = if c then a.logTimeKasaFail else b.logTimeKasaFail :=
  apply_ite St.logTimeKasaFail c a b

@[simp] theorem ite_St_was_connected (c : Prop) [Decidable c] (a b : St) :
    (if c then a else b).was_connected = if c then a.was_connected else b.was_connected :=
  apply_ite St.was_connected c a b

@[simp] theorem ite_St_last_wifi_try (c : Prop) [Decidable c] (a b : St) :
    (if c then a else b).last_wifi_try = if c then a.last_wifi_try else b.last_wifi_try :=
  apply_ite St.last_wifi_try c a b

@[simp] theorem ite_St_lastHeartbeat (c : Prop) [Decidable c] (a b : St) :
    (if c then a else b).lastHeartbeat = if c then a.lastHeartbeat else b.lastHeartbeat :=
  apply_ite St.lastHeartbeat c a b

@[simp] theorem ite_St_last_ssl_activity (c : Prop) [Decidable c] (a b : St) :
    (if c then a else b).last_ssl_activity = if c then a.last_ssl_activity else b.last_ssl_activity :=
  apply_ite St.last_ssl_activity c a b

@[simp] theorem ite_St_cachedSunrise (c : Prop) [Decidable c] (a b : St) :
    (if c then a else b).cachedSunrise = if c then a.cachedSunrise else b.cachedSunrise :=
  apply_ite St.cachedSunrise c a b

@[simp] theorem ite_St_cachedSunset (c : Prop) [Decidable c] (a b : St) :
    (if c then a else b).cachedSunset = if c then a.cachedSunset else b.cachedSunset :=
  apply_ite St.cachedSunset c a b

@[simp] theorem ite_St_lastSunUpdate (c : Prop) [Decidable c] (a b : St) :
    (if c then a else b).lastSunUpdate = if c then a.lastSunUpdate else b.lastSunUpdate :=
  apply_ite St.lastSunUpdate c a b

@[simp] theorem ite_St_relayOn (c : Prop) [Decidable c] (a b : St) :
    (if c then a else b).relayOn = if c then a.relayOn else b.relayOn :=
  apply_ite St.relayOn c a b

@[simp] theorem ite_DarkRes_dark (c : Prop) [Decidable c] (a b : DarkRes) :
    (if c then a else b).dark = if c then a.dark else b.dark :=
  apply_ite DarkRes.dark c a b

@[simp] theorem ite_DarkRes_cachedSunrise (c : Prop) [Decidable c] (a b : DarkRes) :
    (if c then a else b).cachedSunrise = if c then a.cachedSunrise else b.cachedSunrise :=
  apply_ite DarkRes.cachedSunrise c a b

@[simp] theorem ite_DarkRes_cachedSunset (c : Prop) [Decidable c] (a b : DarkRes) :
    (if c then a else b).cachedSunset = if c then a.cachedSunset else b.cachedSunset :=
  apply_ite DarkRes.cachedSunset c a b

@[simp] theorem ite_DarkRes_lastSunUpdate (c : Prop) [Decidable c] (a b : DarkRes) :
    (if c then a else b).lastSunUpdate = if c then a.lastSunUpdate else b.lastSunUpdate :=
  apply_ite DarkRes.lastSunUpdate c a b

@[simp] theorem ite_KasaRes_cmds (c : Prop) [Decidable c] (a b : KasaRes) :
    (if c then a else b).cmds = if c then a.cmds else b.cmds :=
  apply_ite KasaRes.cmds c a b

@[simp] theorem ite_KasaRes_deadline (c : Prop) [Decidable c] (a b : KasaRes) :
    (if c then a else b).deadline = if c then a.deadline else b.deadline :=
  apply_ite KasaRes.deadline c a b

@[simp] theorem ite_KasaRes_logPorchOn (c : Prop) [Decidable c] (a b : KasaRes) :
    (if c then a else b).logPorchOn = if c then a.logPorchOn else b.logPorchOn :=
  apply_ite KasaRes.logPorchOn c a b

@[simp] theorem ite_KasaRes_logKasaFail (c : Prop) [Decidable c] (a b : KasaRes) :
    (if c then a else b).logKasaFail = if c then a.logKasaFail else b.logKasaFail :=
  apply_ite KasaRes.logKasaFail c a b

@[simp] theorem ite_KasaRes_relayOn (c : Prop) [Decidable c] (a b : KasaRes) :
    (if c then a else b).relayOn = if c then a.relayOn else b.relayOn :=
  apply_ite KasaRes.relayOn c a b

@[simp] theorem ite_KasaRes_connects (c : Prop) [Decidable c] (a b : KasaRes) :
    (if c then a else b).connects = if c then a.connects else b.connects :=
  apply_ite KasaRes.connects c a b

@[simp] theorem ite_OffRes_cmds (c : Prop) [Decidable c] (a b : OffRes) :
    (if c then a else b).cmds = if c then a.cmds else b.cmds :=
  apply_ite OffRes.cmds c a b

@[simp] theorem ite_OffRes_deadline (c : Prop) [Decidable c] (a b : OffRes) :
    (if c then a else b).deadline = if c then a.deadline else b.deadline :=
  apply_ite OffRes.deadline c a b

@[simp] theorem ite_OffRes_relayOn (c : Prop) [Decidable c] (a b : OffRes) :
    (if c then a else b).relayOn = if c then a.relayOn else b.relayOn :=
  apply_ite OffRes.relayOn c a b

@[simp] theorem ite_OffRes_connects (c : Prop) [Decidable c] (a b : OffRes) :
    (if c then a else b).connects = if c then a.connects else b.connects :=
  apply_ite OffRes.connects c a b

@[simp] theorem ite_DrainRes_lw (c : Prop) [Decidable c] (a b : DrainRes) :
    (if c then a else b).lw = if c then a.lw else b.lw :=
  apply_ite DrainRes.lw c a b

@[simp] theorem ite_DrainRes_lon (c : Prop) [Decidable c] (a b : DrainRes) :
    (if c then a else b).lon = if c then a.lon else b.lon :=
  apply_ite DrainRes.lon c a b

@[simp] theorem ite_DrainRes_lp (c : Prop) [Decidable c] (a b : DrainRes) :
    (if c then a else b).lp = if c then a.lp else b.lp :=
  apply_ite DrainRes.lp c a b

@[simp] theorem ite_DrainRes_loff (c : Prop) [Decidable c] (a b : DrainRes) :
    (if c then a else b).loff = if c then a.loff else b.loff :=
  apply_ite DrainRes.loff c a b

@[simp] theorem ite_DrainRes_lk (c : Prop) [Decidable c] (a b : DrainRes) :
    (if c then a else b).lk = if c then a.lk else b.lk :=
  apply_ite DrainRes.lk c a b

@[simp] theorem ite_DrainRes_sent (c : Prop) [Decidable c] (a b : DrainRes) :
    (if c then a else b).sent = if c then a.sent else b.sent :=
  apply_ite DrainRes.sent c a b

@[simp] theorem ite_DetectRes_st (c : Prop) [Decidable c] (a b : DetectRes) :
    (if c then a else b).st = if c then a.st else b.st :=
  apply_ite DetectRes.st c a b

@[simp] theorem ite_DetectRes_cmds (c : Prop) [Decidable c] (a b : DetectRes) :
    (if c then a else b).cmds = if c then a.cmds else b.cmds :=
  apply_ite DetectRes.cmds c a b

@[simp] theorem ite_DetectRes_connects (c : Prop) [Decidable c] (a b : DetectRes) :
    (if c then a else b).connects = if c then a.connects else b.connects :=
  apply_ite DetectRes.connects c a b

@[simp] theorem ite_POffRes_st (c : Prop) [Decidable c] (a b : POffRes) :
    (if c then a else b).st = if c then a.st else b.st :=
  apply_ite POffRes.st c a b

@[simp] theorem ite_POffRes_cmds (c : Prop) [Decidable c] (a b : POffRes) :
    (if c then a else b).cmds = if c then a.cmds else b.cmds :=
  apply_ite POffRes.cmds c a b

@[simp] theorem ite_POffRes_called (c : Prop) [Decidable c] (a b : POffRes) :
    (if c then a else b).called = if c then a.called else b.called :=
  apply_ite POffRes.called c a b

@[simp] theorem ite_POffRes_connects (c : Prop) [Decidable c] (a b : POffRes) :
    (if c then a else b).connects = if c then a.connects else b.connects :=
  apply_ite POffRes.connects c a b

@[simp] theorem ite_DrainStepRes_st (c : Prop) [Decidable c] (a b : DrainStepRes) :
    (if c then a else b).st = if c then a.st else b.st :=
  apply_ite DrainStepRes.st c a b

@[simp] theorem ite_DrainStepRes_cmds (c : Prop) [Decidable c] (a b : DrainStepRes) :
    (if c then a else b).cmds = if c then a.cmds else b.cmds :=
  apply_ite DrainStepRes.cmds c a b

@[simp] theorem ite_DrainStepRes_sent (c : Prop) [Decidable c] (a b : DrainStepRes) :
    (if c then a else b).sent = if c then a.sent else b.sent :=
  apply_ite DrainStepRes.sent c a b

@[simp] theorem ite_DrainStepRes_connects (c : Prop) [Decidable c] (a b : DrainStepRes) :
    (if c then a else b).connects = if c then a.connects else b.connects :=
  apply_ite DrainStepRes.connects c a b

@[simp] theorem ite_Out_st (c : Prop) [Decidable c] (a b : Out) :
    (if c then a else b).st = if c then a.st else b.st :=
  apply_ite Out.st c a b

@[simp] theorem ite_Out_cmds (c : Prop) [Decidable c] (a b : Out) :
    (if c then a else b).cmds = if c then a.cmds else b.cmds :=
  apply_ite Out.cmds c a b

@[simp] theorem ite_Out_sent (c : Prop) [Decidable c] (a b : Out) :
    (if c then a else b).sent = if c then a.sent else b.sent :=
  apply_ite Out.sent c a b

@[simp] theorem ite_Out_wifiAttempt (c : Prop) [Decidable c] (a b : Out) :
    (if c then a else b).wifiAttempt = if c then a.wifiAttempt else b.wifiAttempt :=
  apply_ite Out.wifiAttempt c a b

@[simp] theorem ite_Out_kasaConnects (c : Prop) [Decidable c] (a b : Out) :
    (if c then a else b).kasaConnects = if c then a.kasaConnects else b.kasaConnects :=
  apply_ite Out.kasaConnects c a b

@[simp] theorem ite_Out_porchOffCalled (c : Prop) [Decidable c] (a b : Out) :
    (if c then a else b).porchOffCalled = if c then a.porchOffCalled else b.porchOffCalled :=
  apply_ite Out.porchOffCalled c a b

@[simp] theorem ite_pair_fst (c : Prop) [Decidable c] (a b : St × Bool) :
    (if c then a else b).1 = if c then a.1 else b.1 :=
  apply_ite Prod.fst c a b

@[simp] theorem ite_pair_snd (c : Prop) [Decidable c] (a b : St × Bool) :
    (if c then a else b).2 = if c then a.2 else b.2 :=
  apply_ite Prod.snd c a b

/-! ## Arithmetic facts about the 32-bit clock -/

theorem sub32_self (a : Nat) : sub32 a a = 0 := by simp [sub32]

theorem sub32_id {a b : Nat} (hb : b ≤ a) (ha : a < M32) : sub32 a b = a - b := by
  simp only [sub32, M32] at *
  omega

theorem sub32_mm {a b : Nat} (hb : b ≤ a) :
    sub32 (mm a) (mm b) = (a - b) % M32 := by
  simp only [sub32, mm, M32]
  omega

theorem sub32_le {a b : Nat} (hb : b ≤ a) : sub32 (mm a) (mm b) ≤ a - b := by
  rw [sub32_mm hb]
  exact Nat.mod_le _ _

theorem mm_lt {t : Nat} (h : t < M32) : mm t = t := Nat.mod_eq_of_lt h

/-- A deadline armed `d` ms into the future is not yet due at the moment it
is armed (the signed 32-bit test sees a negative difference). -/
theorem fresh_not_due {t d : Nat} (ht : t < M32) (h0 : 0 < d)
    (hd : d < 2147483648) : sge0 (sub32 t ((mm t + d) % M32)) = false := by
  simp only [sge0, sub32, mm, M32] at *
  simp only [decide_eq_false_iff_not, not_lt]
  omega

theorem markTime_ne_zero (r : Nat) : markTime r ≠ 0 := by
  unfold markTime
  split <;> simp_all

theorem markTime_id {r : Nat} (h : r ≠ 0) : markTime r = r := by
  simp [markTime, h]

/-! ## Frame lemmas: which fields each section of `loop()` leaves alone -/

theorem wifi_check_frame (s : St) (i : Inp) :
    (wifi_check s i).1.light = s.light ∧
    (wifi_check s i).1.body_time = s.body_time ∧
    (wifi_check s i).1.low_detect_time = s.low_detect_time ∧
    (wifi_check s i).1.up_detect_time = s.up_detect_time ∧
    (wifi_check s i).1.porch_auto_off_time = s.porch_auto_off_time ∧
    (wifi_check s i).1.logTimeOn = s.logTimeOn ∧
    (wifi_check s i).1.logTimeOff = s.logTimeOff ∧
    (wifi_check s i).1.logTimePorchOn = s.logTimePorchOn ∧
    (wifi_check s i).1.logTimeKasaFail = s.logTimeKasaFail ∧
    (wifi_check s i).1.lastHeartbeat = s.lastHeartbeat ∧
    (wifi_check s i).1.last_ssl_activity = s.last_ssl_activity ∧
    (wifi_check s i).1.cachedSunrise = s.cachedSunrise ∧
    (wifi_check s i).1.cachedSunset = s.cachedSunset ∧
    (wifi_check s i).1.lastSunUpdate = s.lastSunUpdate ∧
    (wifi_check s i).1.relayOn = s.relayOn := by
  unfold wifi_check
  simp only [ite_pair_fst, ite_St_light, ite_St_body_time, ite_St_low_detect_time,
    ite_St_up_detect_time, ite_St_porch_auto_off_time, ite_St_logTimeOn,
    ite_St_logTimeOff, ite_St_logTimePorchOn, ite_St_logTimeKasaFail,
    ite_St_lastHeartbeat, ite_St_last_ssl_activity, ite_St_cachedSunrise,
    ite_St_cachedSunset, ite_St_lastSunUpdate, ite_St_relayOn, ite_self]
  simp

theorem detectStep_frame (s : St) (i : Inp) :
    (detectStep s i).st.logTimeOff = s.logTimeOff ∧
    (detectStep s i).st.logTimeWiFi = s.logTimeWiFi ∧
    (detectStep s i).st.was_connected = s.was_connected ∧
    (detectStep s i).st.last_wifi_try = s.last_wifi_try ∧
    (detectStep s i).st.lastHeartbeat = s.lastHeartbeat ∧
    (detectStep s i).st.last_ssl_activity = s.last_ssl_activity := by
  unfold detectStep
  simp only [ite_DetectRes_st, ite_St_logTimeOff, ite_St_logTimeWiFi,
    ite_St_was_connected, ite_St_last_wifi_try, ite_St_lastHeartbeat,
    ite_St_last_ssl_activity, ite_self]
  simp

theorem lightOffStep_frame (s : St) (i : Inp) :
    (lightOffStep s i).body_time = s.body_time ∧
    (lightOffStep s i).low_detect_time = s.low_detect_time ∧
    (lightOffStep s i).up_detect_time = s.up_detect_time ∧
    (lightOffStep s i).porch_auto_off_time = s.porch_auto_off_time ∧
    (lightOffStep s i).logTimeOn = s.logTimeOn ∧
    (lightOffStep s i).logTimeWiFi = s.logTimeWiFi ∧
    (lightOffStep s i).logTimePorchOn = s.logTimePorchOn ∧
    (lightOffStep s i).logTimeKasaFail = s.logTimeKasaFail ∧
    (lightOffStep s i).was_connected = s.was_connected ∧
    (lightOffStep s i).last_wifi_try = s.last_wifi_try ∧
    (lightOffStep s i).lastHeartbeat = s.lastHeartbeat ∧
    (lightOffStep s i).last_ssl_activity = s.last_ssl_activity ∧
    (lightOffStep s i).cachedSunrise = s.cachedSunrise ∧
    (lightOffStep s i).cachedSunset = s.cachedSunset ∧
    (lightOffStep s i).lastSunUpdate = s.lastSunUpdate ∧
    (lightOffStep s i).relayOn = s.relayOn := by
  unfold lightOffStep
  split_ifs <;> simp

theorem porchOffStep_frame (s : St) (i : Inp) :
    (porchOffStep s i).st.light = s.light ∧
    (porchOffStep s i).st.body_time = s.body_time ∧
    (porchOffStep s i).st.low_detect_time = s.low_detect_time ∧
    (porchOffStep s i).st.up_detect_time = s.up_detect_time ∧
    (porchOffStep s i).st.logTimeOn = s.logTimeOn ∧
    (porchOffStep s i).st.logTimeOff = s.logTimeOff ∧
    (porchOffStep s i).st.logTimeWiFi = s.logTimeWiFi ∧
    (porchOffStep s i).st.logTimePorchOn = s.logTimePorchOn ∧
    (porchOffStep s i).st.logTimeKasaFail = s.logTimeKasaFail ∧
    (porchOffStep s i).st.was_connected = s.was_connected ∧
    (porchOffStep s i).st.last_wifi_try = s.last_wifi_try ∧
    (porchOffStep s i).st.lastHeartbeat = s.lastHeartbeat ∧
    (porchOffStep s i).st.last_ssl_activity = s.last_ssl_activity ∧
    (porchOffStep s i).st.cachedSunrise = s.cachedSunrise ∧
    (porchOffStep s i).st.cachedSunset = s.cachedSunset ∧
    (porchOffStep s i).st.lastSunUpdate = s.lastSunUpdate := by
  unfold porchOffStep porch_off
  simp only [ite_POffRes_st, ite_OffRes_deadline, ite_OffRes_relayOn, ite_self]
  split_ifs <;> simp

theorem drainStep_frame (s : St) (i : Inp) :
    (drainStep s i).st.light = s.light ∧
    (drainStep s i).st.body_time = s.body_time ∧
    (drainStep s i).st.low_detect_time = s.low_detect_time ∧
    (drainStep s i).st.up_detect_time = s.up_detect_time ∧
    (drainStep s i).st.porch_auto_off_time = s.porch_auto_off_time ∧
    (drainStep s i).st.was_connected = s.was_connected ∧
    (drainStep s i).st.last_wifi_try = s.last_wifi_try ∧
    (drainStep s i).st.cachedSunrise = s.cachedSunrise ∧
    (drainStep s i).st.cachedSunset = s.cachedSunset ∧
    (drainStep s i).st.lastSunUpdate = s.lastSunUpdate ∧
    (drainStep s i).st.relayOn = s.relayOn := by
  unfold drainStep
  simp only [ite_DrainStepRes_st, ite_St_light, ite_St_body_time,
    ite_St_low_detect_time, ite_St_up_detect_time, ite_St_porch_auto_off_time,
    ite_St_was_connected, ite_St_last_wifi_try, ite_St_cachedSunrise,
    ite_St_cachedSunset, ite_St_lastSunUpdate, ite_St_relayOn, ite_self]
  simp

theorem drainStep_cmds (s : St) (i : Inp) :
    (drainStep s i).cmds = [] ∨ (drainStep s i).cmds = [Cmd.queryInfo] := by
  unfold drainStep
  simp only [ite_DrainStepRes_cmds, ite_self]
  split_ifs <;> simp

/-! ## Behaviour of the individual sections -/

/-- `isItDark` only reads the solar cache fields of the state. -/
theorem isItDark_congr {s s' : St} (i : Inp)
    (h1 : s'.cachedSunrise = s.cachedSunrise)
    (h2 : s'.cachedSunset = s.cachedSunset)
    (h3 : s'.lastSunUpdate = s.lastSunUpdate) :
    isItDark s' i = isItDark s i := by
  unfold isItDark
  rw [h1, h2, h3]

/-- `isItDark` only reads the solar cache, which `wifi_check` leaves
alone. -/
theorem isItDark_wifi_check (s : St) (i : Inp) :
    isItDark (wifi_check s i).1 i = isItDark s i := by
  obtain ⟨-, -, -, -, -, -, -, -, -, -, -, h1, h2, h3, -⟩ := wifi_check_frame s i
  exact isItDark_congr i h1 h2 h3

/-- How one tick changes `body_time` and the stairway light: a detection
while dark refreshes `body_time` and leaves the light on; otherwise the
light goes off exactly when it was on and `body_time` is `light_length`
stale. -/
theorem tick_light_body (s : St) (i : Inp) :
    ((tick s i).st.body_time =
      if i.sensor ≠ 0 ∧ (isItDark s i).dark = true then mm i.time
      else s.body_time) ∧
    ((tick s i).st.light =
      if i.sensor ≠ 0 ∧ (isItDark s i).dark = true then true
      else if s.light = true ∧ sub32 (mm i.time) s.body_time ≥ light_length
        then false else s.light) := by
  obtain ⟨hw1, hw2, -, -, -, -, -, -, -, -, -, -, -, -, -⟩ := wifi_check_frame s i
  have hdk := isItDark_wifi_check s i
  unfold tick
  obtain ⟨hd1, hd2, -, -, -, -, -, -, -, -, -⟩ :=
    drainStep_frame (porchOffStep (lightOffStep (detectStep (wifi_check s i).1 i).st i) i).st i
  obtain ⟨hp1, hp2, -, -, -, -, -, -, -, -, -, -, -, -, -, -⟩ :=
    porchOffStep_frame (lightOffStep (detectStep (wifi_check s i).1 i).st i) i
  simp only [hd1, hd2, hp1, hp2]
  have hdet :
      ((detectStep (wifi_check s i).1 i).st.body_time =
        if i.sensor ≠ 0 ∧ (isItDark s i).dark = true then mm i.time
        else s.body_time) ∧
      ((detectStep (wifi_check s i).1 i).st.light =
        if i.sensor ≠ 0 ∧ (isItDark s i).dark = true then true
        else s.light) := by
    unfold detectStep
    rw [hdk]
    by_cases h0 : i.sensor = 0
    · simp [h0, hw1, hw2]
    · by_cases hdark : (isItDark s i).dark = true
      · by_cases hl : (wifi_check s i).1.light = false
        · simp [h0, hdark, hl, hw2]
        · simp only [Bool.not_eq_false] at hl
          simp [h0, hdark, hl, hw1, hw2]
      · simp [h0, hdark, hw1, hw2]
  obtain ⟨hb, hl2⟩ := hdet
  unfold lightOffStep
  by_cases hcase : i.sensor ≠ 0 ∧ (isItDark s i).dark = true
  · have h0 : sub32 (mm i.time) (mm i.time) = 0 := sub32_self _
    simp [hb, hl2, hcase, h0, light_length]
  · simp only [if_neg hcase] at hb hl2
    simp only [if_neg hcase]
    split_ifs with h1 <;> simp_all

/-! ## C1: the stairway-light hold invariant -/

/-- The light-hold invariant after a tick at time `t`: `body_time` never
runs ahead of the clock, and the light is on exactly when some
detection-while-dark happened (`body_time ≠ 0`) less than `light_length`
ago. -/
def lightInv (t : Nat) (s : St) : Prop :=
  s.body_time ≤ t ∧
    (s.light = true ↔ s.body_time ≠ 0 ∧ t - s.body_time < light_length)

theorem lightInv_tick {s : St} {i : Inp} {t : Nat} (h : lightInv t s)
    (h1 : t < i.time) (h2 : i.time < M32) : lightInv i.time (tick s i).st := by
  obtain ⟨hb, hiff⟩ := h
  obtain ⟨hbody, hlight⟩ := tick_light_body s i
  have hmm : mm i.time = i.time := mm_lt h2
  by_cases hcase : i.sensor ≠ 0 ∧ (isItDark s i).dark = true
  · refine ⟨?_, ?_⟩
    · rw [hbody, if_pos hcase, hmm]
    · rw [hlight, if_pos hcase, hbody, if_pos hcase, hmm]
      simp [light_length]
      omega
  · have hble : s.body_time ≤ i.time := le_trans hb h1.le
    have hsub : sub32 (mm i.time) s.body_time = i.time - s.body_time := by
      rw [hmm]
      exact sub32_id hble h2
    refine ⟨?_, ?_⟩
    · rw [hbody, if_neg hcase]
      exact hble
    · rw [hlight, if_neg hcase, hbody, if_neg hcase, hsub]
      simp only [light_length] at hiff ⊢
      split_ifs with hoff
      · simp only [Bool.false_eq_true, false_iff]
        rintro ⟨-, hlt⟩
        omega
      · by_cases hl0 : s.light = true
        · obtain ⟨hne, hlt⟩ := hiff.mp hl0
          rw [hl0] at hoff
          simp only [hl0, true_iff]
          refine ⟨hne, ?_⟩
          by_contra hge
          exact hoff ⟨rfl, by omega⟩
        · simp only [Bool.not_eq_true] at hl0
          simp only [hl0, Bool.false_eq_true, false_iff]
          rintro ⟨hne, hlt⟩
          rcases Decidable.em (s.body_time = 0) with hz | hz
          · exact hne hz
          · have hstale : ¬ (t - s.body_time < 60000) := fun hh => by
              have := hiff.mpr ⟨hz, hh⟩
              rw [hl0] at this
              exact Bool.false_ne_true this
            omega

theorem lightInv_run : ∀ (is : List Inp) (s : St) (t : Nat),
    lightInv t s → timesMono t is = true → timesBelow M32 is = true →
    lightInv (lastTime t is) (run s is)
  | [], _, _, h, _, _ => h
  | i :: is, s, t, h, hm, hb => by
    simp only [timesMono, Bool.and_eq_true, decide_eq_true_eq] at hm
    simp only [timesBelow, List.all_cons, Bool.and_eq_true,
      decide_eq_true_eq] at hb
    exact lightInv_run is (tick s i).st i.time
      (lightInv_tick ⟨h.1, h.2⟩ hm.1 hb.1) hm.2 (by simp [timesBelow, hb.2])

/-- A tick environment at time `t` with sensor result `sensor`, a
night-time clock reading (fallback path of `isItDark`: implausible epoch,
20:00), and the given Wi-Fi / Kasa-connect oracle results. -/
def inpAt (t sensor : Nat) (wifi cOk c2Ok : Bool) : Inp :=
  { time := t,
    sensor := sensor,
    epochTime := 0,
    currentMin := 1200,
    sunriseF := 420,
    sunsetF := 1080,
    wifi := wifi,
    connectOk := cOk,
    connect2Ok := c2Ok,
    offConnectOk := true,
    hbConnectOk := false,
    sslConnected := false,
    sslOk := false }

/-- A daytime variant of `inpAt` (10:00 under the fallback window, so
`isItDark` returns false). -/
def inpDayAt (t sensor : Nat) : Inp :=
  { inpAt t sensor true true true with currentMin := 600 }

/-- C1, as stated, fails on the code: a tick with a lower-sensor detection
at `t = 1000` while `isItDark()` is false leaves the stairway light off at
the end of the tick, although `t − lastDetectionTime = 0 < light_length`
(the sketch only refreshes `body_time`, the timestamp the hold comparison
uses, when `isItDark()` is true, and only then turns the light on). -/
theorem C1_counterexample :
    (tick initSt (inpDayAt 1000 1)).st.low_detect_time = 1000 ∧
    sub32 1000 (tick initSt (inpDayAt 1000 1)).st.low_detect_time <
      light_length ∧
    (tick initSt (inpDayAt 1000 1)).st.light = false := by decide

/-- C1 (amended): at the end of every tick the stairway light is on iff
some tick saw a body while `isItDark()` held (`body_time ≠ 0`) and the
most recent such tick lies less than `light_length` in the past — the
comparison re-evaluated every tick over strictly increasing tick times
below the 32-bit wrap. -/
theorem C1_stairlight_iff_recent_dark_detection (is : List Inp)
    (hm : timesMono 0 is = true) (hb : timesBelow M32 is = true) :
    ((run initSt is).light = true ↔
      (run initSt is).body_time ≠ 0 ∧
        lastTime 0 is - (run initSt is).body_time < light_length) :=
  (lightInv_run is initSt 0 ⟨Nat.le_refl 0, by simp [initSt]⟩ hm hb).2

/-- Witness for C1: a single dark-detection tick at `t = 5000` leaves the
light on, in agreement with the invariant. -/
theorem C1_witness :
    ((run initSt [inpAt 5000 1 true true true]).light = true ↔
      (run initSt [inpAt 5000 1 true true true]).body_time ≠ 0 ∧
        lastTime 0 [inpAt 5000 1 true true true] -
          (run initSt [inpAt 5000 1 true true true]).body_time <
          light_length) :=
  C1_stairlight_iff_recent_dark_detection [inpAt 5000 1 true true true]
    (by decide) (by decide)

/-! ## C8: the rolling-XOR obfuscation -/

theorem natXor_cancel (k b : Nat) : Nat.xor k (Nat.xor k b) = b := by
  show k ^^^ (k ^^^ b) = b
  rw [← Nat.xor_assoc, Nat.xor_self, Nat.zero_xor]

theorem kasaEncode_kasaDecode (k : Nat) :
    ∀ x : List Nat, kasaEncode k (kasaDecode k x) = x := by
  intro x
  induction x generalizing k with
  | nil => rfl
  | cons b bs ih =>
    unfold kasaDecode kasaEncode
    rw [natXor_cancel, ih b]

theorem kasaDecode_kasaEncode (k : Nat) :
    ∀ x : List Nat, kasaDecode k (kasaEncode k x) = x := by
  intro x
  induction x generalizing k with
  | nil => rfl
  | cons b bs ih =>
    unfold kasaEncode kasaDecode
    rw [natXor_cancel, ih (Nat.xor k b)]

/-- C8: the rolling-XOR stream obfuscation seeded with `0xAB = 171` and its
matching decode transform invert each other on every byte sequence:
`encode (decode x) = x` and `decode (encode x) = x`. -/
theorem C8_xor_obfuscation_roundtrip (x : List Nat) :
    kasaEncode 171 (kasaDecode 171 x) = x ∧
    kasaDecode 171 (kasaEncode 171 x) = x :=
  ⟨kasaEncode_kasaDecode 171 x, kasaDecode_kasaEncode 171 x⟩

/-! ## C5: Wi-Fi reconnect spacing -/

/-- What `wifi_check` does to its statics: `WiFi.begin` is attempted iff
disconnected and `wifi_try_time` has elapsed since `last_wifi_try`, and
`last_wifi_try` is refreshed exactly on an attempt. -/
theorem wifi_check_spec (s : St) (i : Inp) :
    ((wifi_check s i).2 = true ↔
      i.wifi = false ∧ sub32 (mm i.time) s.last_wifi_try ≥ wifi_try_time) ∧
    ((wifi_check s i).1.last_wifi_try =
      if i.wifi = false ∧ sub32 (mm i.time) s.last_wifi_try ≥ wifi_try_time
      then mm i.time else s.last_wifi_try) := by
  unfold wifi_check
  by_cases hw : i.wifi = true
  · have : i.wifi ≠ false := by simp [hw]
    split_ifs <;> simp_all
  · simp only [Bool.not_eq_true] at hw
    by_cases hc : sub32 (mm i.time) s.last_wifi_try < wifi_try_time
    · have : ¬ sub32 (mm i.time) s.last_wifi_try ≥ wifi_try_time := by omega
      simp [hw, hc, this]
    · have : sub32 (mm i.time) s.last_wifi_try ≥ wifi_try_time := by omega
      simp [hw, hc, this]

/-- `wifi_check` is the only section of the tick touching
`last_wifi_try` and the attempt flag. -/
theorem tick_wifi (s : St) (i : Inp) :
    (tick s i).wifiAttempt = (wifi_check s i).2 ∧
    (tick s i).st.last_wifi_try = (wifi_check s i).1.last_wifi_try := by
  refine ⟨rfl, ?_⟩
  show (drainStep _ _).st.last_wifi_try = _
  rw [(drainStep_frame _ _).2.2.2.2.2.2.1,
    (porchOffStep_frame _ _).2.2.2.2.2.2.2.2.2.2.1,
    (lightOffStep_frame _ _).2.2.2.2.2.2.2.2.2.1,
    (detectStep_frame _ _).2.2.2.1]

/-- The attempt times of a run are spaced by at least `wifi_try_time`,
given the previous attempt (or boot) at `τ`. -/
theorem wifi_spacing : ∀ (is : List Inp) (s : St) (t0 τ : Nat),
    s.last_wifi_try = mm τ → τ ≤ t0 → timesMono t0 is = true →
    List.Chain' (fun a b => a + wifi_try_time ≤ b)
      (τ :: wifiAttemptTimes s is)
  | [], _, _, _, _, _, _ => List.chain'_singleton _
  | i :: is, s, t0, τ, hlast, hle, hm => by
    simp only [timesMono, Bool.and_eq_true, decide_eq_true_eq] at hm
    obtain ⟨hspec, hupd⟩ := wifi_check_spec s i
    obtain ⟨hat, hlw⟩ := tick_wifi s i
    unfold wifiAttemptTimes
    by_cases ha : (tick s i).wifiAttempt = true
    · rw [if_pos ha]
      rw [hat] at ha
      obtain ⟨hwf, hges⟩ := hspec.mp ha
      rw [hlast] at hges
      have hd : sub32 (mm i.time) (mm τ) ≤ i.time - τ :=
        sub32_le (le_trans hle hm.1.le)
      have hsep : τ + wifi_try_time ≤ i.time := by
        have := le_trans hges hd
        omega
      have hrest := wifi_spacing is (tick s i).st i.time i.time
        (by
          rw [hlw, hupd, if_pos ⟨hwf, by rw [hlast]; exact hges⟩])
        (le_refl _) hm.2
      exact List.chain'_cons.mpr ⟨hsep, hrest⟩
    · rw [if_neg ha]
      rw [hat] at ha
      have hno : ¬ (i.wifi = false ∧
          sub32 (mm i.time) s.last_wifi_try ≥ wifi_try_time) :=
        fun hcon => ha (hspec.mpr hcon)
      exact wifi_spacing is (tick s i).st i.time τ
        (by rw [hlw, hupd, if_neg hno, hlast])
        (le_trans hle hm.1.le) hm.2

/-- C5: along any run from boot with strictly increasing tick times,
consecutive `WiFi.begin` attempts are at least `wifi_try_time` apart, and
an attempt happens only while disconnected with `wifi_try_time` elapsed
since `last_wifi_try`. -/
theorem C5_wifi_retry_spacing :
    (∀ is : List Inp, timesMono 0 is = true →
      List.Chain' (fun a b => a + wifi_try_time ≤ b)
        (wifiAttemptTimes initSt is)) ∧
    (∀ (s : St) (i : Inp), (tick s i).wifiAttempt = true →
      i.wifi = false ∧ sub32 (mm i.time) s.last_wifi_try ≥ wifi_try_time) := by
  constructor
  · intro is hm
    have h := wifi_spacing is initSt 0 0 rfl (le_refl 0) hm
    exact h.tail
  · intro s i ha
    obtain ⟨hat, -⟩ := tick_wifi s i
    rw [hat] at ha
    exact (wifi_check_spec s i).1.mp ha

/-- Witness for C5: under continuous disconnection with ticks at 70000,
80000 and 131000 ms, the attempts land at 70000 and 131000 — 61000 ms
apart. -/
theorem C5_witness :
    List.Chain' (fun a b => a + wifi_try_time ≤ b)
      (wifiAttemptTimes initSt
        [inpAt 70000 0 false true true, inpAt 80000 0 false true true,
          inpAt 131000 0 false true true]) :=
  C5_wifi_retry_spacing.1 _ (by decide)

/-! ## C7: the day/night oracle -/

/-- C7: `isItDark` always returns (it is a total function of its inputs);
with an implausible epoch (< 1735689600) it answers from the fixed
17:00–8:00 window and leaves the cache alone; with a plausible epoch it
answers from the (possibly refreshed) cached sunrise/sunset with the
15-minute margin, refreshing the cache only when it is over an hour old —
so two consecutive cache recomputations are always more than 3600000 ms
apart. -/
theorem C7_isItDark_spec :
    (∀ (s : St) (i : Inp), i.epochTime < 1735689600 →
      (isItDark s i).dark =
        decide (i.currentMin ≥ 1020 ∨ i.currentMin ≤ 480) ∧
      (isItDark s i).cachedSunrise = s.cachedSunrise ∧
      (isItDark s i).cachedSunset = s.cachedSunset ∧
      (isItDark s i).lastSunUpdate = s.lastSunUpdate) ∧
    (∀ (s : St) (i : Inp), 1735689600 ≤ i.epochTime →
      (sub32 (mm i.time) s.lastSunUpdate > 3600000 →
        (isItDark s i).dark =
          decide (i.currentMin ≥ i.sunsetF - 15 ∨
            i.currentMin ≤ i.sunriseF + 15) ∧
        (isItDark s i).cachedSunrise = i.sunriseF ∧
        (isItDark s i).cachedSunset = i.sunsetF ∧
        (isItDark s i).lastSunUpdate = mm i.time) ∧
      (sub32 (mm i.time) s.lastSunUpdate ≤ 3600000 →
        (isItDark s i).dark =
          decide (i.currentMin ≥ s.cachedSunset - 15 ∨
            i.currentMin ≤ s.cachedSunrise + 15) ∧
        (isItDark s i).cachedSunrise = s.cachedSunrise ∧
        (isItDark s i).cachedSunset = s.cachedSunset ∧
        (isItDark s i).lastSunUpdate = s.lastSunUpdate)) ∧
    (∀ (s : St) (i : Inp) (τ : Nat), s.lastSunUpdate = mm τ → τ ≤ i.time →
      (isItDark s i).lastSunUpdate ≠ s.lastSunUpdate →
      i.time - τ > 3600000) := by
  refine ⟨?_, ?_, ?_⟩
  · intro s i h
    unfold isItDark
    rw [if_pos h]
    exact ⟨rfl, rfl, rfl, rfl⟩
  · intro s i h
    have hnot : ¬ i.epochTime < 1735689600 := by omega
    constructor
    · intro hupd
      unfold isItDark
      rw [if_neg hnot]
      simp [hupd]
    · intro hstale
      have : ¬ sub32 (mm i.time) s.lastSunUpdate > 3600000 := by omega
      unfold isItDark
      rw [if_neg hnot]
      simp [this]
  · intro s i τ hτ hle hch
    by_cases hep : i.epochTime < 1735689600
    · exfalso
      apply hch
      unfold isItDark
      rw [if_pos hep]
    · by_cases hupd : sub32 (mm i.time) s.lastSunUpdate > 3600000
      · rw [hτ] at hupd
        have := sub32_le hle
        omega
      · exfalso
        apply hch
        unfold isItDark
        rw [if_neg hep]
        simp [hupd]

/-- Witness for C7: with epoch 0 (implausible) at 20:00 the fallback
window declares darkness and the cache is untouched. -/
theorem C7_witness :
    (isItDark initSt (inpAt 1000 1 true true true)).dark =
      decide ((1200 : Int) ≥ 1020 ∨ (1200 : Int) ≤ 480) ∧
    (isItDark initSt (inpAt 1000 1 true true true)).cachedSunrise =
      initSt.cachedSunrise ∧
    (isItDark initSt (inpAt 1000 1 true true true)).cachedSunset =
      initSt.cachedSunset ∧
    (isItDark initSt (inpAt 1000 1 true true true)).lastSunUpdate =
      initSt.lastSunUpdate :=
  C7_isItDark_spec.1 initSt (inpAt 1000 1 true true true) (by decide)

/-! ## C9: draining at most one log event per tick -/

theorem drain_none (t : Nat) (ok : Bool) (lw lon lp loff lk : Nat) :
    (drainLogs t ok lw lon lp loff lk).sent = none →
    drainLogs t ok lw lon lp loff lk =
      { lw := lw, lon := lon, lp := lp, loff := loff, lk := lk,
        sent := none } ∧
    lw = 0 ∧ lon = 0 ∧ lp = 0 ∧ loff = 0 ∧ lk = 0 := by
  unfold drainLogs
  split_ifs <;> simp_all

theorem drain_fail (t : Nat) (ok : Bool) (lw lon lp loff lk : Nat) :
    ok = false →
    (drainLogs t ok lw lon lp loff lk).lw = lw ∧
    (drainLogs t ok lw lon lp loff lk).lon = lon ∧
    (drainLogs t ok lw lon lp loff lk).lp = lp ∧
    (drainLogs t ok lw lon lp loff lk).loff = loff ∧
    (drainLogs t ok lw lon lp loff lk).lk = lk := by
  intro h
  subst h
  unfold drainLogs
  split_ifs <;> simp_all

theorem drain_count (t : Nat) (ok : Bool) (lw lon lp loff lk : Nat) :
    (if (drainLogs t ok lw lon lp loff lk).lw = lw then 0 else 1) +
      (if (drainLogs t ok lw lon lp loff lk).lon = lon then 0 else 1) +
      (if (drainLogs t ok lw lon lp loff lk).lp = lp then 0 else 1) +
      (if (drainLogs t ok lw lon lp loff lk).loff = loff then 0 else 1) +
      (if (drainLogs t ok lw lon lp loff lk).lk = lk then 0 else 1) ≤ 1 := by
  by_cases h1 : lw > 0
  · simp only [drainLogs, if_pos h1]
    split_ifs <;> simp
  · by_cases h2 : lon > 0
    · simp only [drainLogs, if_neg h1, if_pos h2]
      split_ifs <;> simp
    · by_cases h3 : lp > 0
      · simp only [drainLogs, if_neg h1, if_neg h2, if_pos h3]
        split_ifs <;> simp
      · by_cases h4 : loff > 0
        · simp only [drainLogs, if_neg h1, if_neg h2, if_neg h3, if_pos h4]
          split_ifs <;> simp
        · by_cases h5 : lk > 0
          · simp only [drainLogs, if_neg h1, if_neg h2, if_neg h3, if_neg h4,
              if_pos h5]
            split_ifs <;> simp
          · simp only [drainLogs, if_neg h1, if_neg h2, if_neg h3, if_neg h4,
              if_neg h5]
            simp

theorem drain_fmt (t : Nat) (ok : Bool) (lw lon lp loff lk : Nat) :
    ∀ (m : String) (k : Bool),
      (drainLogs t ok lw lon lp loff lk).sent = some (m, k) →
      k = ok ∧
      ((lw ≠ 0 ∧ m = logMsg "WiFi RECONNECTED" t lw) ∨
       (lw = 0 ∧ lon ≠ 0 ∧ m = logMsg "Stair light ON" t lon) ∨
       (lw = 0 ∧ lon = 0 ∧ lp ≠ 0 ∧ m = logMsg "Porch light ON" t lp) ∨
       (lw = 0 ∧ lon = 0 ∧ lp = 0 ∧ loff ≠ 0 ∧
         m = logMsg "Stair light OFF" t loff) ∨
       (lw = 0 ∧ lon = 0 ∧ lp = 0 ∧ loff = 0 ∧ lk ≠ 0 ∧
         m = logMsg "Kasa Porch Timeout" t lk)) := by
  intro m k
  unfold drainLogs
  split_ifs <;> simp_all <;> omega

theorem drain_clear (t : Nat) (ok : Bool) (lw lon lp loff lk : Nat) :
    ((drainLogs t ok lw lon lp loff lk).lw ≠ lw →
      lw ≠ 0 ∧ (drainLogs t ok lw lon lp loff lk).lw = 0 ∧ ok = true) ∧
    ((drainLogs t ok lw lon lp loff lk).lon ≠ lon →
      lon ≠ 0 ∧ (drainLogs t ok lw lon lp loff lk).lon = 0 ∧ ok = true) ∧
    ((drainLogs t ok lw lon lp loff lk).lp ≠ lp →
      lp ≠ 0 ∧ (drainLogs t ok lw lon lp loff lk).lp = 0 ∧ ok = true) ∧
    ((drainLogs t ok lw lon lp loff lk).loff ≠ loff →
      loff ≠ 0 ∧ (drainLogs t ok lw lon lp loff lk).loff = 0 ∧ ok = true) ∧
    ((drainLogs t ok lw lon lp loff lk).lk ≠ lk →
      lk ≠ 0 ∧ (drainLogs t ok lw lon lp loff lk).lk = 0 ∧ ok = true) := by
  rcases ok with _ | _ <;> unfold drainLogs <;> split_ifs <;>
    simp_all <;> try omega

/-- C9: one scan of the `events[]` table (the quiet-period drain):
if no slot is pending nothing changes and nothing is sent; a failed send
leaves every slot unchanged; at most one slot changes; whatever is handed
to the sender is the first pending slot formatted as
`"<message> (<age>s ago)"` with the send result attached; and a slot is
cleared (set to 0) only when it was pending and the send succeeded. -/
theorem C9_drain_one_slot (t : Nat) (ok : Bool) (lw lon lp loff lk : Nat) :
    ((drainLogs t ok lw lon lp loff lk).sent = none →
      drainLogs t ok lw lon lp loff lk =
        { lw := lw, lon := lon, lp := lp, loff := loff, lk := lk,
          sent := none } ∧
      lw = 0 ∧ lon = 0 ∧ lp = 0 ∧ loff = 0 ∧ lk = 0) ∧
    (ok = false →
      (drainLogs t ok lw lon lp loff lk).lw = lw ∧
      (drainLogs t ok lw lon lp loff lk).lon = lon ∧
      (drainLogs t ok lw lon lp loff lk).lp = lp ∧
      (drainLogs t ok lw lon lp loff lk).loff = loff ∧
      (drainLogs t ok lw lon lp loff lk).lk = lk) ∧
    ((if (drainLogs t ok lw lon lp loff lk).lw = lw then 0 else 1) +
      (if (drainLogs t ok lw lon lp loff lk).lon = lon then 0 else 1) +
      (if (drainLogs t ok lw lon lp loff lk).lp = lp then 0 else 1) +
      (if (drainLogs t ok lw lon lp loff lk).loff = loff then 0 else 1) +
      (if (drainLogs t ok lw lon lp loff lk).lk = lk then 0 else 1) ≤ 1) ∧
    (∀ (m : String) (k : Bool),
      (drainLogs t ok lw lon lp loff lk).sent = some (m, k) →
      k = ok ∧
      ((lw ≠ 0 ∧ m = logMsg "WiFi RECONNECTED" t lw) ∨
       (lw = 0 ∧ lon ≠ 0 ∧ m = logMsg "Stair light ON" t lon) ∨
       (lw = 0 ∧ lon = 0 ∧ lp ≠ 0 ∧ m = logMsg "Porch light ON" t lp) ∨
       (lw = 0 ∧ lon = 0 ∧ lp = 0 ∧ loff ≠ 0 ∧
         m = logMsg "Stair light OFF" t loff) ∨
       (lw = 0 ∧ lon = 0 ∧ lp = 0 ∧ loff = 0 ∧ lk ≠ 0 ∧
         m = logMsg "Kasa Porch Timeout" t lk))) ∧
    (((drainLogs t ok lw lon lp loff lk).lw ≠ lw →
        lw ≠ 0 ∧ (drainLogs t ok lw lon lp loff lk).lw = 0 ∧ ok = true) ∧
     ((drainLogs t ok lw lon lp loff lk).lon ≠ lon →
        lon ≠ 0 ∧ (drainLogs t ok lw lon lp loff lk).lon = 0 ∧ ok = true) ∧
     ((drainLogs t ok lw lon lp loff lk).lp ≠ lp →
        lp ≠ 0 ∧ (drainLogs t ok lw lon lp loff lk).lp = 0 ∧ ok = true) ∧
     ((drainLogs t ok lw lon lp loff lk).loff ≠ loff →
        loff ≠ 0 ∧ (drainLogs t ok lw lon lp loff lk).loff = 0 ∧ ok = true) ∧
     ((drainLogs t ok lw lon lp loff lk).lk ≠ lk →
        lk ≠ 0 ∧ (drainLogs t ok lw lon lp loff lk).lk = 0 ∧ ok = true)) :=
  ⟨drain_none t ok lw lon lp loff lk, drain_fail t ok lw lon lp loff lk,
    drain_count t ok lw lon lp loff lk, drain_fmt t ok lw lon lp loff lk,
    drain_clear t ok lw lon lp loff lk⟩

/-- Witness for C9: with only the stair-light-off slot pending and a
successful send, the drained message is "Stair light OFF (59s ago)" with
the slot cleared. -/
theorem C9_witness :
    (false = false →
      (drainLogs 61000 false 0 0 0 1500 0).lw = 0 ∧
      (drainLogs 61000 false 0 0 0 1500 0).lon = 0 ∧
      (drainLogs 61000 false 0 0 0 1500 0).lp = 0 ∧
      (drainLogs 61000 false 0 0 0 1500 0).loff = 1500 ∧
      (drainLogs 61000 false 0 0 0 1500 0).lk = 0) :=
  (C9_drain_one_slot 61000 false 0 0 0 1500 0).2.1

/-! ## C10: every pending mark stores a nonzero timestamp -/

theorem wifi_check_logWiFi (s : St) (i : Inp) :
    (wifi_check s i).1.logTimeWiFi = s.logTimeWiFi ∨
    (wifi_check s i).1.logTimeWiFi = markTime (mm i.time) := by
  unfold wifi_check
  simp only [ite_pair_fst, ite_St_logTimeWiFi, ite_self]
  split_ifs <;> simp

theorem detect_logs (s : St) (i : Inp) :
    ((detectStep s i).st.logTimeOn = s.logTimeOn ∨
     (detectStep s i).st.logTimeOn = markTime (mm i.time)) ∧
    ((detectStep s i).st.logTimePorchOn = s.logTimePorchOn ∨
     (detectStep s i).st.logTimePorchOn = markTime (mm i.time)) ∧
    ((detectStep s i).st.logTimeKasaFail = s.logTimeKasaFail ∨
     (detectStep s i).st.logTimeKasaFail = markTime (mm i.time)) := by
  unfold detectStep porch_on
  simp only [ite_DetectRes_st, ite_St_logTimeOn, ite_St_logTimePorchOn,
    ite_St_logTimeKasaFail, ite_KasaRes_logPorchOn, ite_KasaRes_logKasaFail,
    ite_self]
  split_ifs <;> simp

theorem lightOff_logOff (s : St) (i : Inp) :
    (lightOffStep s i).logTimeOff = s.logTimeOff ∨
    (lightOffStep s i).logTimeOff = markTime (mm i.time) := by
  unfold lightOffStep
  split_ifs <;> simp

theorem drainStep_logs (s : St) (i : Inp) :
    ((drainStep s i).st.logTimeWiFi = s.logTimeWiFi ∨
      ((drainStep s i).st.logTimeWiFi = 0 ∧
        ∃ m, (drainStep s i).sent = some (m, true))) ∧
    ((drainStep s i).st.logTimeOn = s.logTimeOn ∨
      ((drainStep s i).st.logTimeOn = 0 ∧
        ∃ m, (drainStep s i).sent = some (m, true))) ∧
    ((drainStep s i).st.logTimePorchOn = s.logTimePorchOn ∨
      ((drainStep s i).st.logTimePorchOn = 0 ∧
        ∃ m, (drainStep s i).sent = some (m, true))) ∧
    ((drainStep s i).st.logTimeOff = s.logTimeOff ∨
      ((drainStep s i).st.logTimeOff = 0 ∧
        ∃ m, (drainStep s i).sent = some (m, true))) ∧
    ((drainStep s i).st.logTimeKasaFail = s.logTimeKasaFail ∨
      ((drainStep s i).st.logTimeKasaFail = 0 ∧
        ∃ m, (drainStep s i).sent = some (m, true))) := by
  unfold drainStep
  by_cases hq : sub32 (mm i.time) s.low_detect_time > 3000 ∧
      sub32 (mm i.time) s.up_detect_time > 3000
  · rw [if_pos hq]
    by_cases hs :
        (drainLogs i.time (formLogOk i.wifi i.sslConnected i.sslOk)
          s.logTimeWiFi s.logTimeOn s.logTimePorchOn s.logTimeOff
          s.logTimeKasaFail).sent.isSome = true
    · simp only [hs, if_pos]
      obtain ⟨p, hp⟩ := Option.isSome_iff_exists.mp hs
      have hfmt := drain_fmt i.time (formLogOk i.wifi i.sslConnected i.sslOk)
        s.logTimeWiFi s.logTimeOn s.logTimePorchOn s.logTimeOff
        s.logTimeKasaFail p.1 p.2 (by rw [hp])
      have hclear := drain_clear i.time
        (formLogOk i.wifi i.sslConnected i.sslOk) s.logTimeWiFi s.logTimeOn
        s.logTimePorchOn s.logTimeOff s.logTimeKasaFail
      refine ⟨?_, ?_, ?_, ?_, ?_⟩
      · rcases Decidable.em
          ((drainLogs i.time (formLogOk i.wifi i.sslConnected i.sslOk)
            s.logTimeWiFi s.logTimeOn s.logTimePorchOn s.logTimeOff
            s.logTimeKasaFail).lw = s.logTimeWiFi) with he | he
        · exact Or.inl he
        · obtain ⟨-, hz, hok⟩ := hclear.1 he
          have hpt : p = (p.1, true) := by
            obtain ⟨a, b⟩ := p
            have hb : b = true := hfmt.1.trans hok
            rw [hb]
          exact Or.inr ⟨hz, p.1, hp.trans (congrArg some hpt)⟩
      · rcases Decidable.em
          ((drainLogs i.time (formLogOk i.wifi i.sslConnected i.sslOk)
            s.logTimeWiFi s.logTimeOn s.logTimePorchOn s.logTimeOff
            s.logTimeKasaFail).lon = s.logTimeOn) with he | he
        · exact Or.inl he
        · obtain ⟨-, hz, hok⟩ := hclear.2.1 he
          have hpt : p = (p.1, true) := by
            obtain ⟨a, b⟩ := p
            have hb : b = true := hfmt.1.trans hok
            rw [hb]
          exact Or.inr ⟨hz, p.1, hp.trans (congrArg some hpt)⟩
      · rcases Decidable.em
          ((drainLogs i.time (formLogOk i.wifi i.sslConnected i.sslOk)
            s.logTimeWiFi s.logTimeOn s.logTimePorchOn s.logTimeOff
            s.logTimeKasaFail).lp = s.logTimePorchOn) with he | he
        · exact Or.inl he
        · obtain ⟨-, hz, hok⟩ := hclear.2.2.1 he
          have hpt : p = (p.1, true) := by
            obtain ⟨a, b⟩ := p
            have hb : b = true := hfmt.1.trans hok
            rw [hb]
          exact Or.inr ⟨hz, p.1, hp.trans (congrArg some hpt)⟩
      · rcases Decidable.em
          ((drainLogs i.time (formLogOk i.wifi i.sslConnected i.sslOk)
            s.logTimeWiFi s.logTimeOn s.logTimePorchOn s.logTimeOff
            s.logTimeKasaFail).loff = s.logTimeOff) with he | he
        · exact Or.inl he
        · obtain ⟨-, hz, hok⟩ := hclear.2.2.2.1 he
          have hpt : p = (p.1, true) := by
            obtain ⟨a, b⟩ := p
            have hb : b = true := hfmt.1.trans hok
            rw [hb]
          exact Or.inr ⟨hz, p.1, hp.trans (congrArg some hpt)⟩
      · rcases Decidable.em
          ((drainLogs i.time (formLogOk i.wifi i.sslConnected i.sslOk)
            s.logTimeWiFi s.logTimeOn s.logTimePorchOn s.logTimeOff
            s.logTimeKasaFail).lk = s.logTimeKasaFail) with he | he
        · exact Or.inl he
        · obtain ⟨-, hz, hok⟩ := hclear.2.2.2.2 he
          have hpt : p = (p.1, true) := by
            obtain ⟨a, b⟩ := p
            have hb : b = true := hfmt.1.trans hok
            rw [hb]
          exact Or.inr ⟨hz, p.1, hp.trans (congrArg some hpt)⟩
    · rw [if_neg hs]
      split_ifs <;> simp
  · rw [if_neg hq]
    simp

/-- C10: `markTime` (the `x ? x : 1` guard) never stores 0 — in particular
a `millis()` reading of 0 is recorded as 1 — and across one whole tick
every log-event slot is either left alone, set to `markTime` of the tick's
`millis()` reading (hence nonzero), or cleared to 0 by a drain whose send
succeeded.  So a slot is zero exactly when no event is pending. -/
theorem C10_pending_marks_nonzero :
    (∀ r : Nat, markTime r ≠ 0) ∧ markTime 0 = 1 ∧
    ∀ (s : St) (i : Inp),
      ((tick s i).st.logTimeWiFi = s.logTimeWiFi ∨
        (tick s i).st.logTimeWiFi = markTime (mm i.time) ∨
        ((tick s i).st.logTimeWiFi = 0 ∧
          ∃ m, (tick s i).sent = some (m, true))) ∧
      ((tick s i).st.logTimeOn = s.logTimeOn ∨
        (tick s i).st.logTimeOn = markTime (mm i.time) ∨
        ((tick s i).st.logTimeOn = 0 ∧
          ∃ m, (tick s i).sent = some (m, true))) ∧
      ((tick s i).st.logTimePorchOn = s.logTimePorchOn ∨
        (tick s i).st.logTimePorchOn = markTime (mm i.time) ∨
        ((tick s i).st.logTimePorchOn = 0 ∧
          ∃ m, (tick s i).sent = some (m, true))) ∧
      ((tick s i).st.logTimeOff = s.logTimeOff ∨
        (tick s i).st.logTimeOff = markTime (mm i.time) ∨
        ((tick s i).st.logTimeOff = 0 ∧
          ∃ m, (tick s i).sent = some (m, true))) ∧
      ((tick s i).st.logTimeKasaFail = s.logTimeKasaFail ∨
        (tick s i).st.logTimeKasaFail = markTime (mm i.time) ∨
        ((tick s i).st.logTimeKasaFail = 0 ∧
          ∃ m, (tick s i).sent = some (m, true))) := by
  refine ⟨markTime_ne_zero, rfl, ?_⟩
  intro s i
  have h1 := wifi_check_logWiFi s i
  obtain ⟨hdOn, hdPorch, hdKasa⟩ := detect_logs (wifi_check s i).1 i
  have hdframe := detectStep_frame (wifi_check s i).1 i
  have hwframe := wifi_check_frame s i
  have hloff := lightOff_logOff (detectStep (wifi_check s i).1 i).st i
  have hlframe := lightOffStep_frame (detectStep (wifi_check s i).1 i).st i
  have hpframe := porchOffStep_frame
    (lightOffStep (detectStep (wifi_check s i).1 i).st i) i
  have hdrain := drainStep_logs
    (porchOffStep (lightOffStep (detectStep (wifi_check s i).1 i).st i) i).st i
  have hsent : (tick s i).sent =
      (drainStep (porchOffStep
        (lightOffStep (detectStep (wifi_check s i).1 i).st i) i).st i).sent :=
    rfl
  have hst : (tick s i).st =
      (drainStep (porchOffStep
        (lightOffStep (detectStep (wifi_check s i).1 i).st i) i).st i).st :=
    rfl
  rw [hst]
  refine ⟨?_, ?_, ?_, ?_, ?_⟩
  · rcases hdrain.1 with he | hz
    · rw [he, hpframe.2.2.2.2.2.2.1, hlframe.2.2.2.2.2.1, hdframe.2.1]
      rcases h1 with h | h
      · exact Or.inl h
      · exact Or.inr (Or.inl h)
    · exact Or.inr (Or.inr ⟨hz.1, by rw [← hsent] at hz; exact hz.2⟩)
  · rcases hdrain.2.1 with he | hz
    · rw [he, hpframe.2.2.2.2.1, hlframe.2.2.2.2.1]
      rcases hdOn with h | h
      · rw [h, hwframe.2.2.2.2.2.1]
        exact Or.inl rfl
      · exact Or.inr (Or.inl h)
    · exact Or.inr (Or.inr ⟨hz.1, by rw [← hsent] at hz; exact hz.2⟩)
  · rcases hdrain.2.2.1 with he | hz
    · rw [he, hpframe.2.2.2.2.2.2.2.1, hlframe.2.2.2.2.2.2.1]
      rcases hdPorch with h | h
      · rw [h, hwframe.2.2.2.2.2.2.2.1]
        exact Or.inl rfl
      · exact Or.inr (Or.inl h)
    · exact Or.inr (Or.inr ⟨hz.1, by rw [← hsent] at hz; exact hz.2⟩)
  · rcases hdrain.2.2.2.1 with he | hz
    · rw [he, hpframe.2.2.2.2.2.1]
      rcases hloff with h | h
      · rw [h, hdframe.1, hwframe.2.2.2.2.2.2.1]
        exact Or.inl rfl
      · exact Or.inr (Or.inl h)
    · exact Or.inr (Or.inr ⟨hz.1, by rw [← hsent] at hz; exact hz.2⟩)
  · rcases hdrain.2.2.2.2 with he | hz
    · rw [he, hpframe.2.2.2.2.2.2.2.2.1, hlframe.2.2.2.2.2.2.2.1]
      rcases hdKasa with h | h
      · rw [h, hwframe.2.2.2.2.2.2.2.2.1]
        exact Or.inl rfl
      · exact Or.inr (Or.inl h)
    · exact Or.inr (Or.inr ⟨hz.1, by rw [← hsent] at hz; exact hz.2⟩)

/-- Witness for C10: an event at a `millis()` reading of 0 is recorded with
timestamp 1, which is nonzero, so it is not treated as an empty slot. -/
theorem C10_witness : markTime 0 = 1 ∧ markTime 0 ≠ 0 :=
  ⟨C10_pending_marks_nonzero.2.1, C10_pending_marks_nonzero.1 0⟩

/-! ## C2: the porch-on debounce window -/

/-- The state after the first tick of the walking-up scenario: the
stairway light was just turned on by a lower-sensor detection at `t0`
(while dark, Wi-Fi connected). -/
def stAfterLow (t0 : Nat) : St :=
  { initSt with
    light := true,
    body_time := t0,
    low_detect_time := t0,
    logTimeOn := t0,
    logTimeWiFi := t0,
    was_connected := true }

/-- Evaluating the first scenario tick: a lower-sensor detection at `t0`
turns the light on and sends nothing to the Kasa switch. -/
theorem tick_low_eval (t0 : Nat) (cOk c2Ok : Bool) (h1 : 1 ≤ t0)
    (h2 : t0 < M32) :
    tick initSt (inpAt t0 1 true cOk c2Ok) =
      { st := stAfterLow t0, cmds := [], sent := none, wifiAttempt := false,
        kasaConnects := 0, porchOffCalled := false } := by
  have hmm : mm t0 = t0 := mm_lt h2
  have hmk : markTime t0 = t0 := markTime_id (by omega)
  have hs0 : sub32 t0 t0 = 0 := sub32_self t0
  unfold tick wifi_check detectStep lightOffStep porchOffStep drainStep
    isItDark
  simp [inpAt, initSt, stAfterLow, hmm, hmk, hs0, light_length]

theorem porchOffStep_onCount (s : St) (i : Inp) :
    onCount (porchOffStep s i).cmds = 0 := by
  unfold porchOffStep porch_off
  simp only [ite_POffRes_cmds, ite_OffRes_cmds, ite_self]
  split_ifs <;> simp [onCount]

theorem drainStep_onCount (s : St) (i : Inp) :
    onCount (drainStep s i).cmds = 0 := by
  rcases drainStep_cmds s i with h | h <;> simp [h, onCount]

/-- Evaluating the second scenario tick: with the light on from a lower
detection at `t0`, an upper-sensor detection at `t0 + g` (dark, Wi-Fi up,
both connects succeeding, relay off) emits exactly one porch-on command
when `4000 < g < 40000` and none otherwise. -/
theorem tick_up_onCount (t0 g : Nat) (h1 : 1 ≤ t0) (h2 : t0 + g < M32) :
    onCount (tick (stAfterLow t0) (inpAt (t0 + g) 2 true true true)).cmds =
      if 4000 < g ∧ g < 40000 then 1 else 0 := by
  have hmm : mm (t0 + g) = t0 + g := mm_lt h2
  have hsub : sub32 (mm (t0 + g)) t0 = g := by
    rw [hmm, sub32_id (by omega) h2]
    omega
  have htick : (tick (stAfterLow t0) (inpAt (t0 + g) 2 true true true)).cmds =
      (detectStep (wifi_check (stAfterLow t0)
          (inpAt (t0 + g) 2 true true true)).1
        (inpAt (t0 + g) 2 true true true)).cmds ++
      (porchOffStep _ _).cmds ++ (drainStep _ _).cmds := rfl
  rw [htick]
  simp only [onCount, List.countP_append] at *
  rw [show (wifi_check (stAfterLow t0) (inpAt (t0 + g) 2 true true true)).1 =
      stAfterLow t0 by
    unfold wifi_check
    simp [inpAt, stAfterLow, initSt]]
  have hdc : (detectStep (stAfterLow t0)
      (inpAt (t0 + g) 2 true true true)).cmds =
      if 4000 < g ∧ g < 40000 then [Cmd.queryInfo, Cmd.setRelay true]
      else [] := by
    unfold detectStep isItDark porch_on
    by_cases hwin : 4000 < g ∧ g < 40000
    · simp [inpAt, stAfterLow, initSt, hsub, if_pos hwin, hwin]
    · simp [inpAt, stAfterLow, initSt, hsub]
      split_ifs <;> first | rfl | (exfalso; omega)
  rw [hdc]
  have h3 := porchOffStep_onCount
    (lightOffStep (detectStep (stAfterLow t0)
      (inpAt (t0 + g) 2 true true true)).st
      (inpAt (t0 + g) 2 true true true))
    (inpAt (t0 + g) 2 true true true)
  have h4 := drainStep_onCount
    (porchOffStep (lightOffStep (detectStep (stAfterLow t0)
        (inpAt (t0 + g) 2 true true true)).st
        (inpAt (t0 + g) 2 true true true))
      (inpAt (t0 + g) 2 true true true)).st
    (inpAt (t0 + g) 2 true true true)
  simp only [onCount] at h3 h4
  rw [h3, h4]
  split_ifs <;> simp

/-- C2 (amended, strict bounds): in the walking-up scenario — light turned
on by a lower detection at `t0`, then an upper detection at `t0 + g` with
Wi-Fi up and a coöperative switch — exactly one porch-on command is sent
iff `4000 < g < 40000` (`debounceMin < g < debounceMax`, strictly), and
zero commands otherwise. -/
theorem C2_porch_window_strict (t0 g : Nat) (h1 : 1 ≤ t0)
    (h2 : t0 + g < M32) :
    onCount (runCmds initSt
        [inpAt t0 1 true true true, inpAt (t0 + g) 2 true true true]) =
      if 4000 < g ∧ g < 40000 then 1 else 0 := by
  unfold runCmds runCmds runCmds
  rw [tick_low_eval t0 true true h1 (by omega)]
  simp only [onCount, List.countP_append, List.countP_nil]
  have := tick_up_onCount t0 g h1 h2
  simp only [onCount] at this
  rw [this]
  split_ifs <;> simp

/-- C2 as stated (inclusive bounds) is refuted at the boundary: with the
light on from a lower detection at `t0 = 1000`, an upper detection exactly
`g = 4000` ms later satisfies `debounceMin ≤ g ≤ debounceMax` yet sends
zero porch-on commands, because the code requires strictly more than
4000 ms. -/
theorem C2_counterexample :
    (4000 ≤ 5000 - 1000 ∧ 5000 - 1000 ≤ 40000) ∧
    onCount (runCmds initSt
        [inpAt 1000 1 true true true, inpAt 5000 2 true true true]) = 0 := by
  decide

/-- Witness for C2: the gap `g = 10000` lies strictly inside the window and
produces exactly one porch-on command. -/
theorem C2_witness :
    onCount (runCmds initSt
        [inpAt 1000 1 true true true, inpAt 11000 2 true true true]) =
      if 4000 < 10000 ∧ 10000 < 40000 then 1 else 0 :=
  C2_porch_window_strict 1000 10000 (by decide) (by decide)

/-! ## C3: at most one porch-on per transit -/

/-- Budget: a relay that is off may absorb one more porch-on command. -/
def psi (b : Bool) : Nat := if b then 0 else 1

theorem detect_relay (s : St) (i : Inp) :
    offCount (detectStep s i).cmds = 0 ∧
    onCount (detectStep s i).cmds + psi (detectStep s i).st.relayOn =
      psi s.relayOn := by
  unfold detectStep porch_on
  simp only [ite_DetectRes_st, ite_DetectRes_cmds, ite_St_relayOn,
    ite_KasaRes_cmds, ite_KasaRes_relayOn, ite_self]
  split_ifs <;> simp_all [onCount, offCount, psi]

theorem porchOff_relay (s : St) (i : Inp) :
    onCount (porchOffStep s i).cmds = 0 ∧
    psi (porchOffStep s i).st.relayOn ≤
      psi s.relayOn + offCount (porchOffStep s i).cmds := by
  unfold porchOffStep porch_off
  simp only [ite_POffRes_st, ite_POffRes_cmds, ite_OffRes_cmds,
    ite_OffRes_relayOn, ite_St_relayOn, ite_self]
  split_ifs <;> simp_all [onCount, offCount, psi]

theorem drain_counts (s : St) (i : Inp) :
    onCount (drainStep s i).cmds = 0 ∧ offCount (drainStep s i).cmds = 0 := by
  rcases drainStep_cmds s i with h | h <;> simp [h, onCount, offCount]

/-- One tick never decreases the off-count budget: each porch-on command
spends the budget (relay off → on), each successful porch-off restores
it. -/
theorem tick_relay (s : St) (i : Inp) :
    psi (tick s i).st.relayOn + onCount (tick s i).cmds ≤
      psi s.relayOn + offCount (tick s i).cmds := by
  have hcmds : (tick s i).cmds =
      (detectStep (wifi_check s i).1 i).cmds ++
      (porchOffStep (lightOffStep (detectStep (wifi_check s i).1 i).st i)
        i).cmds ++
      (drainStep (porchOffStep
        (lightOffStep (detectStep (wifi_check s i).1 i).st i) i).st i).cmds :=
    rfl
  have hrel : (tick s i).st.relayOn =
      (porchOffStep (lightOffStep (detectStep (wifi_check s i).1 i).st i)
        i).st.relayOn :=
    (drainStep_frame _ _).2.2.2.2.2.2.2.2.2.2
  obtain ⟨hd1, hd2⟩ := detect_relay (wifi_check s i).1 i
  obtain ⟨hp1, hp2⟩ := porchOff_relay
    (lightOffStep (detectStep (wifi_check s i).1 i).st i) i
  obtain ⟨hq1, hq2⟩ := drain_counts (porchOffStep
    (lightOffStep (detectStep (wifi_check s i).1 i).st i) i).st i
  have hwrel : (wifi_check s i).1.relayOn = s.relayOn :=
    (wifi_check_frame s i).2.2.2.2.2.2.2.2.2.2.2.2.2.2
  have hlrel : (lightOffStep (detectStep (wifi_check s i).1 i).st i).relayOn =
      (detectStep (wifi_check s i).1 i).st.relayOn :=
    (lightOffStep_frame _ _).2.2.2.2.2.2.2.2.2.2.2.2.2.2.2
  rw [hcmds, hrel]
  simp only [onCount, offCount, List.countP_append] at *
  rw [hwrel] at hd2
  rw [hlrel] at hp2
  omega

theorem run_relay : ∀ (is : List Inp) (s : St),
    psi (run s is).relayOn + onCount (runCmds s is) ≤
      psi s.relayOn + offCount (runCmds s is)
  | [], _ => by simp [run, runCmds, onCount, offCount]
  | i :: is, s => by
    have h1 := tick_relay s i
    have h2 := run_relay is (tick s i).st
    unfold run runCmds
    simp only [onCount, offCount, List.countP_append] at *
    omega

/-- C3: once the relay is on, a tick sends no further porch-on command
(the `get_sysinfo` check skips it); along any run from boot the number of
porch-on commands never exceeds the number of successful porch-off
commands plus one — so a single upward transit (no interleaved porch-off)
sends at most one porch-on; and in the concrete double-fire scenario
(upper sensor at 10 s and again at 15 s after the lower detection) exactly
one porch-on command is sent. -/
theorem C3_one_porch_on_per_transit :
    (∀ (s : St) (i : Inp), s.relayOn = true →
      onCount (tick s i).cmds = 0) ∧
    (∀ is : List Inp,
      onCount (runCmds initSt is) ≤ offCount (runCmds initSt is) + 1) ∧
    onCount (runCmds initSt
      [inpAt 1000 1 true true true, inpAt 11000 2 true true true,
        inpAt 16000 2 true true true]) = 1 := by
  refine ⟨?_, ?_, by decide⟩
  · intro s i hrel
    have hcmds : (tick s i).cmds =
        (detectStep (wifi_check s i).1 i).cmds ++
        (porchOffStep (lightOffStep (detectStep (wifi_check s i).1 i).st i)
          i).cmds ++
        (drainStep (porchOffStep
          (lightOffStep (detectStep (wifi_check s i).1 i).st i) i).st
          i).cmds :=
      rfl
    obtain ⟨-, hd2⟩ := detect_relay (wifi_check s i).1 i
    obtain ⟨hp1, -⟩ := porchOff_relay
      (lightOffStep (detectStep (wifi_check s i).1 i).st i) i
    obtain ⟨hq1, -⟩ := drain_counts (porchOffStep
      (lightOffStep (detectStep (wifi_check s i).1 i).st i) i).st i
    have hwrel : (wifi_check s i).1.relayOn = s.relayOn :=
      (wifi_check_frame s i).2.2.2.2.2.2.2.2.2.2.2.2.2.2
    rw [hwrel, hrel] at hd2
    rw [hcmds]
    simp only [onCount, List.countP_append] at *
    simp only [psi, if_pos] at hd2
    omega
  · intro is
    have := run_relay is initSt
    have hinit : psi initSt.relayOn = 1 := rfl
    omega

/-- Witness for C3: with the light on from a lower trigger and the relay
already on, an in-window upper detection sends zero porch-on commands. -/
theorem C3_witness :
    onCount (tick { stAfterLow 1000 with relayOn := true }
      (inpAt 11000 2 true true true)).cmds = 0 :=
  C3_one_porch_on_per_transit.1 _ _ rfl

/-! ## C4: retry behaviour after a failed Kasa connection -/

/-- C4, as stated, fails on the code for the porch-on path: after the
first `client.connect` in `porch_on` fails at `t = 11000` (the tick logs
"Kasa Porch Timeout"), full connection attempts are made again at
`t = 11100` and `t = 11200` — 100 ms and 200 ms after the failure — so no
cooldown interval suppresses them and more than one retry occurs. -/
theorem C4_counterexample :
    ((tick (run initSt [inpAt 1000 1 true true true])
        (inpAt 11000 2 true false false)).kasaConnects = 1 ∧
      (tick (run initSt [inpAt 1000 1 true true true])
        (inpAt 11000 2 true false false)).st.logTimeKasaFail = 11000 ∧
      onCount (tick (run initSt [inpAt 1000 1 true true true])
        (inpAt 11000 2 true false false)).cmds = 0) ∧
    (tick (run initSt
        [inpAt 1000 1 true true true, inpAt 11000 2 true false false])
      (inpAt 11100 2 true false false)).kasaConnects = 1 ∧
    (tick (run initSt
        [inpAt 1000 1 true true true, inpAt 11000 2 true false false,
          inpAt 11100 2 true false false])
      (inpAt 11200 2 true false false)).kasaConnects = 1 := by
  decide

/-- C4 (amended): only the porch auto-off path has a retry cooldown.  A
failed porch-off connect at time `t` reschedules the deadline to
`t + 60000` and sends nothing; while the rescheduled deadline lies ahead
no porch-off attempt is made; a due tick makes exactly one connect
attempt; and a porch-on connect failure merely records the
`logTimeKasaFail` log timestamp, which gates nothing — the number of
connection attempts of the detection step is unchanged by that
timestamp. -/
theorem C4_kasa_retry_amended :
    (∀ (s : St) (i : Inp), s.porch_auto_off_time ≠ 0 →
      sge0 (sub32 (mm i.time) s.porch_auto_off_time) = true →
      i.wifi = true → i.offConnectOk = false →
      (porchOffStep s i).called = true ∧ (porchOffStep s i).connects = 1 ∧
      (porchOffStep s i).cmds = [] ∧
      (porchOffStep s i).st.porch_auto_off_time =
        (mm i.time + 60000) % M32) ∧
    (∀ (s : St) (i : Inp) (t : Nat), t + 60000 < 2147483648 →
      s.porch_auto_off_time = t + 60000 → i.time < t + 60000 →
      (porchOffStep s i).called = false ∧ (porchOffStep s i).connects = 0) ∧
    (∀ (s : St) (i : Inp), s.porch_auto_off_time ≠ 0 →
      sge0 (sub32 (mm i.time) s.porch_auto_off_time) = true →
      i.wifi = true → (porchOffStep s i).connects = 1) ∧
    (∀ (s : St) (i : Inp) (v : Nat),
      (detectStep { s with logTimeKasaFail := v } i).connects =
        (detectStep s i).connects) := by
  refine ⟨?_, ?_, ?_, ?_⟩
  · intro s i hne hdue hw hoff
    unfold porchOffStep porch_off
    rw [if_pos ⟨hne, hdue⟩]
    simp [hw, hoff]
  · intro s i t hbound hdl hlt
    have hnotdue : sge0 (sub32 (mm i.time) s.porch_auto_off_time) = false := by
      rw [hdl]
      simp only [sge0, sub32, mm, M32] at *
      simp only [decide_eq_false_iff_not, not_lt]
      omega
    unfold porchOffStep
    rw [if_neg (by simp [hnotdue])]
    exact ⟨rfl, rfl⟩
  · intro s i hne hdue hw
    unfold porchOffStep porch_off
    rw [if_pos ⟨hne, hdue⟩]
    by_cases hc : i.offConnectOk = true <;> simp [hw, hc]
  · intro s i v
    unfold detectStep porch_on isItDark
    simp only [ite_DetectRes_connects, ite_KasaRes_connects, ite_self]

/-- Witness for C4 (amended): a due porch-off at `t = 400000` whose
connect fails reschedules the deadline to 460000 without sending a
command. -/
theorem C4_witness :
    (porchOffStep { initSt with porch_auto_off_time := 5000, relayOn := true }
        { inpAt 400000 0 true true true with offConnectOk := false }).called =
      true ∧
    (porchOffStep { initSt with porch_auto_off_time := 5000, relayOn := true }
        { inpAt 400000 0 true true true with
          offConnectOk := false }).connects = 1 ∧
    (porchOffStep { initSt with porch_auto_off_time := 5000, relayOn := true }
        { inpAt 400000 0 true true true with offConnectOk := false }).cmds =
      [] ∧
    (porchOffStep { initSt with porch_auto_off_time := 5000, relayOn := true }
        { inpAt 400000 0 true true true with
          offConnectOk := false }).st.porch_auto_off_time =
      (mm 400000 + 60000) % M32 :=
  C4_kasa_retry_amended.1 _ _ (by decide) (by decide) rfl rfl

/-! ## C6: the porch auto-off deadline -/

/-- Effect of a command sequence on the modelled relay. -/
def relayAfter (r : Bool) (cs : List Cmd) : Bool :=
  cs.foldl (fun b c => match c with
    | Cmd.setRelay b2 => b2
    | Cmd.queryInfo => b) r

theorem pendingOn_eq_relayAfter (cs : List Cmd) :
    pendingOn cs = relayAfter false cs := rfl

theorem relayAfter_append (r : Bool) (a b : List Cmd) :
    relayAfter r (a ++ b) = relayAfter (relayAfter r a) b := by
  simp [relayAfter, List.foldl_append]

theorem detect_relayAfter (s : St) (i : Inp) :
    (detectStep s i).st.relayOn =
      relayAfter s.relayOn (detectStep s i).cmds := by
  unfold detectStep porch_on
  simp only [ite_DetectRes_st, ite_DetectRes_cmds, ite_St_relayOn,
    ite_KasaRes_cmds, ite_KasaRes_relayOn, ite_self]
  split_ifs <;> simp [relayAfter]

theorem porchOff_relayAfter (s : St) (i : Inp) :
    (porchOffStep s i).st.relayOn =
      relayAfter s.relayOn (porchOffStep s i).cmds := by
  unfold porchOffStep porch_off
  simp only [ite_POffRes_st, ite_POffRes_cmds, ite_OffRes_cmds,
    ite_OffRes_relayOn, ite_St_relayOn, ite_self]
  split_ifs <;> simp [relayAfter]

theorem drain_relayAfter (s : St) (i : Inp) :
    (drainStep s i).st.relayOn =
      relayAfter s.relayOn (drainStep s i).cmds := by
  have hrel := (drainStep_frame s i).2.2.2.2.2.2.2.2.2.2
  rcases drainStep_cmds s i with h | h <;> simp [h, hrel, relayAfter]

theorem tick_relayAfter (s : St) (i : Inp) :
    (tick s i).st.relayOn = relayAfter s.relayOn (tick s i).cmds := by
  have hcmds : (tick s i).cmds =
      (detectStep (wifi_check s i).1 i).cmds ++
      (porchOffStep (lightOffStep (detectStep (wifi_check s i).1 i).st i)
        i).cmds ++
      (drainStep (porchOffStep
        (lightOffStep (detectStep (wifi_check s i).1 i).st i) i).st i).cmds :=
    rfl
  have hst : (tick s i).st =
      (drainStep (porchOffStep
        (lightOffStep (detectStep (wifi_check s i).1 i).st i) i).st i).st :=
    rfl
  rw [hst, hcmds, relayAfter_append, relayAfter_append]
  rw [drain_relayAfter, porchOff_relayAfter,
    (lightOffStep_frame _ _).2.2.2.2.2.2.2.2.2.2.2.2.2.2.2,
    detect_relayAfter, (wifi_check_frame s i).2.2.2.2.2.2.2.2.2.2.2.2.2.2]

theorem run_relayAfter : ∀ (is : List Inp) (s : St),
    (run s is).relayOn = relayAfter s.relayOn (runCmds s is)
  | [], _ => rfl
  | i :: is, s => by
    unfold run runCmds
    rw [run_relayAfter is (tick s i).st, relayAfter_append,
      ← tick_relayAfter]

theorem detect_deadline_cases (s : St) (i : Inp) :
    ((detectStep s i).st.porch_auto_off_time = s.porch_auto_off_time ∧
      (detectStep s i).st.relayOn = s.relayOn) ∨
    ((detectStep s i).st.porch_auto_off_time =
        (mm i.time + porch_duration) % M32 ∧
      (detectStep s i).st.relayOn = true ∧ s.relayOn = false) := by
  unfold detectStep porch_on
  simp only [ite_DetectRes_st, ite_St_porch_auto_off_time, ite_St_relayOn,
    ite_KasaRes_deadline, ite_KasaRes_relayOn, ite_self]
  split_ifs <;> simp_all

theorem porchOff_deadline_cases (s : St) (i : Inp) :
    ((porchOffStep s i).st.porch_auto_off_time = s.porch_auto_off_time ∧
      (porchOffStep s i).st.relayOn = s.relayOn) ∨
    (s.porch_auto_off_time ≠ 0 ∧
      (((porchOffStep s i).st.porch_auto_off_time = 0 ∧
          (porchOffStep s i).st.relayOn = false) ∨
        ((porchOffStep s i).st.porch_auto_off_time =
            (mm i.time + 10000) % M32 ∧
          (porchOffStep s i).st.relayOn = s.relayOn) ∨
        ((porchOffStep s i).st.porch_auto_off_time =
            (mm i.time + 60000) % M32 ∧
          (porchOffStep s i).st.relayOn = s.relayOn))) := by
  unfold porchOffStep porch_off
  simp only [ite_POffRes_st, ite_OffRes_deadline, ite_OffRes_relayOn,
    ite_St_porch_auto_off_time, ite_St_relayOn, ite_self]
  split_ifs <;> simp_all

/-- The tick preserves "auto-off deadline set iff the relay is on",
provided the tick time stays clear of the 32-bit wrap. -/
theorem tick_J (s : St) (i : Inp) (hbound : i.time + porch_duration < M32)
    (hJ : s.porch_auto_off_time ≠ 0 ↔ s.relayOn = true) :
    (tick s i).st.porch_auto_off_time ≠ 0 ↔
      (tick s i).st.relayOn = true := by
  have hmm : mm i.time = i.time := mm_lt (by unfold porch_duration at hbound; omega)
  have hst : (tick s i).st =
      (drainStep (porchOffStep
        (lightOffStep (detectStep (wifi_check s i).1 i).st i) i).st i).st :=
    rfl
  rw [hst, (drainStep_frame _ _).2.2.2.2.1, (drainStep_frame _ _).2.2.2.2.2.2.2.2.2.2]
  have hwd : (wifi_check s i).1.porch_auto_off_time = s.porch_auto_off_time :=
    (wifi_check_frame s i).2.2.2.2.1
  have hwr : (wifi_check s i).1.relayOn = s.relayOn :=
    (wifi_check_frame s i).2.2.2.2.2.2.2.2.2.2.2.2.2.2
  have hld : (lightOffStep (detectStep (wifi_check s i).1 i).st i).porch_auto_off_time =
      (detectStep (wifi_check s i).1 i).st.porch_auto_off_time :=
    (lightOffStep_frame _ _).2.2.2.1
  have hlr : (lightOffStep (detectStep (wifi_check s i).1 i).st i).relayOn =
      (detectStep (wifi_check s i).1 i).st.relayOn :=
    (lightOffStep_frame _ _).2.2.2.2.2.2.2.2.2.2.2.2.2.2.2
  have hb3 : i.time + 300000 < M32 := by
    unfold porch_duration at hbound
    exact hbound
  have hm300 : (i.time + porch_duration) % M32 = i.time + 300000 := by
    unfold porch_duration
    exact Nat.mod_eq_of_lt hb3
  have hm10 : (i.time + 10000) % M32 = i.time + 10000 :=
    Nat.mod_eq_of_lt (by omega)
  have hm60 : (i.time + 60000) % M32 = i.time + 60000 :=
    Nat.mod_eq_of_lt (by omega)
  rcases detect_deadline_cases (wifi_check s i).1 i with ⟨hd1, hd2⟩ | ⟨hd1, hd2, -⟩ <;>
    rcases porchOff_deadline_cases
      (lightOffStep (detectStep (wifi_check s i).1 i).st i) i with
      ⟨hp1, hp2⟩ | ⟨hpne, hp⟩
  · rw [hp1, hp2, hld, hlr, hd1, hd2, hwd, hwr]
    exact hJ
  · rw [hld, hd1, hwd] at hpne
    have hrel : s.relayOn = true := hJ.mp hpne
    rcases hp with ⟨hq1, hq2⟩ | ⟨hq1, hq2⟩ | ⟨hq1, hq2⟩
    · rw [hq1, hq2]
      simp
    · rw [hq1, hq2, hlr, hd2, hwr, hmm, hm10]
      simp only [hrel]
      constructor
      · intro _; trivial
      · intro _; omega
    · rw [hq1, hq2, hlr, hd2, hwr, hmm, hm60]
      simp only [hrel]
      constructor
      · intro _; trivial
      · intro _; omega
  · rw [hp1, hp2, hld, hlr, hd1, hd2, hmm, hm300]
    constructor
    · intro _; rfl
    · intro _; omega
  · rcases hp with ⟨hq1, hq2⟩ | ⟨hq1, hq2⟩ | ⟨hq1, hq2⟩
    · rw [hq1, hq2]
      simp
    · rw [hq1, hq2, hlr, hd2, hmm, hm10]
      constructor
      · intro _; rfl
      · intro _; omega
    · rw [hq1, hq2, hlr, hd2, hmm, hm60]
      constructor
      · intro _; rfl
      · intro _; omega

theorem run_J : ∀ (is : List Inp) (s : St),
    timesBelow (M32 - porch_duration) is = true →
    (s.porch_auto_off_time ≠ 0 ↔ s.relayOn = true) →
    ((run s is).porch_auto_off_time ≠ 0 ↔ (run s is).relayOn = true)
  | [], _, _, hJ => hJ
  | i :: is, s, hb, hJ => by
    simp only [timesBelow, List.all_cons, Bool.and_eq_true,
      decide_eq_true_eq] at hb
    exact run_J is (tick s i).st (by simp [timesBelow, hb.2])
      (tick_J s i (by unfold porch_duration M32 at *; omega) hJ)

/-- C6: in a state where the relay is on (as it is whenever the deadline
is set, by part three), (1) a tick whose `millis()` makes the signed test
`(long)(now − deadline) ≥ 0` succeed on a set deadline invokes
`porch_off`, which on success sends the off command and clears the
deadline, on a failed connect reschedules it 60 s ahead, and with Wi-Fi
down reschedules it 10 s ahead; (2) a tick where the deadline is unset or
not yet due does not invoke `porch_off`; (3) along any run from boot the
deadline is set iff a porch-on command has been issued with no successful
porch-off after it. -/
theorem C6_auto_off_deadline :
    (∀ (s : St) (i : Inp), s.relayOn = true → s.porch_auto_off_time ≠ 0 →
      sge0 (sub32 (mm i.time) s.porch_auto_off_time) = true →
      (tick s i).porchOffCalled = true ∧
      (i.wifi = true → i.offConnectOk = true →
        (tick s i).st.porch_auto_off_time = 0 ∧
        offCount (tick s i).cmds = 1) ∧
      (i.wifi = true → i.offConnectOk = false →
        (tick s i).st.porch_auto_off_time = (mm i.time + 60000) % M32) ∧
      (i.wifi = false →
        (tick s i).st.porch_auto_off_time = (mm i.time + 10000) % M32)) ∧
    (∀ (s : St) (i : Inp), s.relayOn = true →
      (s.porch_auto_off_time = 0 ∨
        sge0 (sub32 (mm i.time) s.porch_auto_off_time) = false) →
      (tick s i).porchOffCalled = false) ∧
    (∀ is : List Inp, timesBelow (M32 - porch_duration) is = true →
      ((run initSt is).porch_auto_off_time ≠ 0 ↔
        pendingOn (runCmds initSt is) = true)) := by
  have hkey : ∀ (s : St) (i : Inp), s.relayOn = true →
      (lightOffStep (detectStep (wifi_check s i).1 i).st
        i).porch_auto_off_time = s.porch_auto_off_time := by
    intro s i hrel
    have hwd := (wifi_check_frame s i).2.2.2.2.1
    have hwr := (wifi_check_frame s i).2.2.2.2.2.2.2.2.2.2.2.2.2.2
    rcases detect_deadline_cases (wifi_check s i).1 i with
      ⟨hd1, -⟩ | ⟨-, -, hfalse⟩
    · rw [(lightOffStep_frame _ _).2.2.2.1, hd1, hwd]
    · rw [hwr, hrel] at hfalse
      cases hfalse
  refine ⟨?_, ?_, ?_⟩
  · intro s i hrel hne hdue
    have hL := hkey s i hrel
    have hdueL : (lightOffStep (detectStep (wifi_check s i).1 i).st
          i).porch_auto_off_time ≠ 0 ∧
        sge0 (sub32 (mm i.time)
          (lightOffStep (detectStep (wifi_check s i).1 i).st
            i).porch_auto_off_time) = true := by
      rw [hL]
      exact ⟨hne, hdue⟩
    have hcalled : (tick s i).porchOffCalled =
        (porchOffStep (lightOffStep (detectStep (wifi_check s i).1 i).st i)
          i).called := rfl
    have hdl : (tick s i).st.porch_auto_off_time =
        (porchOffStep (lightOffStep (detectStep (wifi_check s i).1 i).st i)
          i).st.porch_auto_off_time :=
      (drainStep_frame _ _).2.2.2.2.1
    have hcmds : (tick s i).cmds =
        (detectStep (wifi_check s i).1 i).cmds ++
        (porchOffStep (lightOffStep (detectStep (wifi_check s i).1 i).st i)
          i).cmds ++
        (drainStep (porchOffStep
          (lightOffStep (detectStep (wifi_check s i).1 i).st i) i).st
          i).cmds := rfl
    refine ⟨?_, ?_, ?_, ?_⟩
    · rw [hcalled]
      unfold porchOffStep
      rw [if_pos hdueL]
    · intro hw hok
      constructor
      · rw [hdl]
        unfold porchOffStep porch_off
        rw [if_pos hdueL]
        simp [hw, hok]
      · have hdoff := (detect_relay (wifi_check s i).1 i).1
        have hqoff := (drain_counts (porchOffStep
          (lightOffStep (detectStep (wifi_check s i).1 i).st i) i).st i).2
        have hpoff : offCount (porchOffStep
            (lightOffStep (detectStep (wifi_check s i).1 i).st i) i).cmds =
            1 := by
          unfold porchOffStep porch_off
          rw [if_pos hdueL]
          simp [hw, hok, offCount]
        rw [hcmds]
        simp only [offCount, List.countP_append] at *
        omega
    · intro hw hok
      rw [hdl]
      unfold porchOffStep porch_off
      rw [if_pos hdueL]
      simp [hw, hok]
    · intro hw
      rw [hdl]
      unfold porchOffStep porch_off
      rw [if_pos hdueL]
      simp [hw]
  · intro s i hrel hnot
    have hL := hkey s i hrel
    have hcalled : (tick s i).porchOffCalled =
        (porchOffStep (lightOffStep (detectStep (wifi_check s i).1 i).st i)
          i).called := rfl
    rw [hcalled]
    unfold porchOffStep
    rw [if_neg (by
      rw [hL]
      rcases hnot with h | h
      · exact fun hc => hc.1 h
      · exact fun hc => by
          rw [h] at hc
          exact Bool.false_ne_true hc.2)]
  · intro is hb
    have hJ := run_J is initSt hb (by simp [initSt])
    have hR := run_relayAfter is initSt
    rw [hJ, hR, pendingOn_eq_relayAfter]
    exact Iff.rfl

/-- The scenario state of the C6 witness: light on from a lower trigger at
1000 ms, porch on with its auto-off deadline armed at 311000 ms. -/
def c6St : St :=
  { stAfterLow 1000 with porch_auto_off_time := 311000, relayOn := true }

/-- Witness for C6: with the relay on and the deadline due at
`t = 400000`, the tick calls `porch_off`, which succeeds, clearing the
deadline and sending exactly one off command. -/
theorem C6_witness :
    (tick c6St (inpAt 400000 0 true true true)).porchOffCalled = true ∧
    ((tick c6St (inpAt 400000 0 true true true)).st.porch_auto_off_time = 0 ∧
      offCount (tick c6St (inpAt 400000 0 true true true)).cmds = 1) :=
  have h := C6_auto_off_deadline.1 c6St (inpAt 400000 0 true true true)
    rfl (by decide) (by decide)
  ⟨h.1, h.2.1 rfl rfl⟩

end SonarLight
